import Mathlib

/-!
Shallow embedding of the `Capstone-backend-Elib` Flask backend
(`src/routes/route_loan.py`, `src/routes/route_user.py`,
`src/routes/route_category.py`).

Modelling conventions:
* The relational store is a `Store` record of lists of rows; primary-key
  lookup (`Model.query.get` / `get_or_404` / `filter_by(...).first()`) is
  `List.find?` on the row id.
* Timestamps are natural numbers measured in days; the two
  `datetime.utcnow()` calls inside one request are modelled as a single
  instant `now`, so `due_date = now + 14`.
* A handler returns `Except Fault (Resp × Store)`: `.error` is an
  unhandled Python exception escaping the handler (e.g. an attribute
  access on `None`, or `request.get_json()` on a request without a JSON
  body); `.ok` carries the HTTP response and the committed store.  When a
  handler raises before `db.session.commit()`, nothing is committed, so
  the store is unchanged — `.error` carries no store.
* `available_copies` is an `Int` (the Python int has no lower bound), so
  the non-negativity invariant is a real statement.
* Python truthiness of `data.get(key)` is modelled by `pyTruthyNat` /
  `pyTruthyStr` (absent key, `0` and `""` are falsy).
-/

namespace Elib

/-- A row of the `User` model (spec §3): id, username, unique email,
hashed password, admin flag, creation time. -/
structure User where
  id : Nat
  username : String
  email : String
  password : String
  is_admin : Bool
  created_at : Nat
deriving Repr, DecidableEq

/-- A row of the `Ebook` model (spec §3): id, title, available_copies. -/
structure Ebook where
  id : Nat
  title : String
  available_copies : Int
deriving Repr, DecidableEq

/-- A row of the `Loan` model (spec §3). -/
structure Loan where
  id : Nat
  user_id : Nat
  ebook_id : Nat
  loan_date : Nat
  due_date : Nat
  return_date : Option Nat
  is_returned : Bool
deriving Repr, DecidableEq

/-- A row of the `Category` model (spec §3): id, required name, optional
description (nullable column; the handlers store strings). -/
structure Category where
  id : Nat
  name : String
  description : Option String
deriving Repr, DecidableEq

/-- The relational store: the four tables the modelled handlers touch,
plus the ids the store will assign to the next inserted rows. -/
structure Store where
  users : List User
  ebooks : List Ebook
  loans : List Loan
  categories : List Category
  next_loan_id : Nat
  next_user_id : Nat
  next_category_id : Nat
deriving Repr, DecidableEq

/-- The public serialization of a user row (password never included):
the dict built by `get_users` / `get_user` / `get_current_user`. -/
structure UserView where
  id : Nat
  username : String
  email : String
  is_admin : Bool
  created_at : Nat
deriving Repr, DecidableEq

/-- The serialization of a category row: the dict built by the category
handlers (`description or ""` renders a missing description as `""`). -/
structure CategoryView where
  id : Nat
  name : String
  description : String
deriving Repr, DecidableEq

/-- `User.query.get(uid)`: primary-key lookup. -/
def findUser (s : Store) (uid : Nat) : Option User :=
  s.users.find? (fun u => u.id == uid)

/-- `Ebook.query.get(eid)`: primary-key lookup. -/
def findEbook (s : Store) (eid : Nat) : Option Ebook :=
  s.ebooks.find? (fun e => e.id == eid)

/-- `Loan.query.get(lid)`: primary-key lookup. -/
def findLoan (s : Store) (lid : Nat) : Option Loan :=
  s.loans.find? (fun l => l.id == lid)

/-- `Category.query.get(cid)`: primary-key lookup. -/
def findCategory (s : Store) (cid : Nat) : Option Category :=
  s.categories.find? (fun c => c.id == cid)

/-- The public view of a user row. -/
def User.view (u : User) : UserView :=
  ⟨u.id, u.username, u.email, u.is_admin, u.created_at⟩

/-- The serialization of a category row: `description or ""`. -/
def Category.view (c : Category) : CategoryView :=
  ⟨c.id, c.name, c.description.getD ""⟩

/-- ORM row update: assignment to the attributes of the session object
with primary key `eid` (every row whose id matches is rewritten). -/
def updateEbook (es : List Ebook) (eid : Nat) (f : Ebook → Ebook) : List Ebook :=
  es.map (fun e => if e.id == eid then f e else e)

/-- An unhandled Python exception escaping a handler. -/
inductive Fault where
  /-- `AttributeError`: attribute access on `None`. -/
  | attrError
  /-- `request.get_json()` on a request carrying no JSON body. -/
  | badBody
  /-- Modelled from the spec: the store enforces email uniqueness
  (spec §3 "email uniqueness enforced by the store"); committing a
  duplicate email in `create_user` raises an `IntegrityError` that the
  handler (which performs no duplicate check) does not catch. -/
  | integrityError
deriving Repr, DecidableEq

/-- The body of an HTTP response produced by a handler. -/
inductive Body where
  /-- `jsonify({"msg": m})` — the JSON error/confirmation envelope. -/
  | msg (m : String)
  /-- The 404 response raised by `get_or_404` on a primary-key miss.
  Its body is produced outside the handlers; modelled from the spec
  (§6 "All error responses: `{"msg": <string>}` with the stated HTTP
  status") it denotes the JSON `msg` envelope into which the app code
  not under `src/` converts the framework 404, with a framework-chosen
  message string. -/
  | notFoundPage
  /-- `jsonify({'loans': [...]})` — a serialized loan list. -/
  | loanList (ls : List Loan)
  /-- The 201 body of `create_loan`: msg plus the created loan. -/
  | loanCreated (m : String) (l : Loan)
  /-- The 200 body of `update_loan`: msg plus id/return_date/is_returned. -/
  | loanReturned (m : String) (id : Nat) (return_date : Option Nat) (is_returned : Bool)
  /-- The body of `update_user` 200: msg plus public user fields. -/
  | userUpdated (m : String) (id : Nat) (username : String) (email : String) (adm : Bool)
  /-- `jsonify({'access_token': ...})`: a bearer token bound to a user id. -/
  | token (uid : Nat)
  /-- The 201 body of `create_user`: msg plus public fields (without
  `created_at`, which that handler does not echo). -/
  | userCreated (m : String) (id : Nat) (username : String) (email : String)
      (adm : Bool)
  /-- The 200 body of `get_users`: every user's public fields. -/
  | userList (vs : List UserView)
  /-- The 200 body of `get_user` / `get_current_user`. -/
  | userView (v : UserView)
  /-- The 200 body of `get_loan`: the full loan dict. -/
  | loanView (l : Loan)
  /-- The 201 body of `create_category`. -/
  | categoryCreated (m : String) (c : CategoryView)
  /-- The 200 body of `get_category`. -/
  | categoryGot (c : CategoryView)
  /-- The 200 body of `get_categories`. -/
  | categoryList (cs : List CategoryView)
  /-- The 200 body of `update_category`. -/
  | categoryUpdated (m : String) (c : CategoryView)
deriving Repr, DecidableEq

/-- An HTTP response: status code and body. -/
structure Resp where
  status : Nat
  body : Body
deriving Repr, DecidableEq

/-- Truthiness of `data.get(k)` for an integer field: absent and `0` are falsy. -/
def pyTruthyNat : Option Nat → Bool
  | none => false
  | some n => n != 0

/-- Truthiness of `data.get(k)` for a string field: absent and `""` are falsy. -/
def pyTruthyStr : Option String → Bool
  | none => false
  | some st => st != ""

/-- Modelled from the spec: the password hashing primitive of `models.py`
(not under `src/`); "Hashes password before storage" and login "verifies
password against stored hash".  Any injective hash with a matching
checker satisfies the spec; a concrete executable one is used. -/
def hashPassword (p : String) : String := "hashed:" ++ p

/-- Modelled from the spec: `User.check_password(candidate, stored_hash)`
from `models.py` (not under `src/`) — verifies a candidate password
against the stored hash. -/
def checkPassword (p h : String) : Bool := hashPassword p == h

end Elib

namespace Elib.route_loan

/-- `_require_admin` of `route_loan.py` (lines 11–25): `None` means
allowed; otherwise the 403 response to return. -/
def _require_admin (s : Store) (identity : Nat) : Option Resp :=
  match findUser s identity with
  | none => some ⟨403, .msg "Accès interdit, vous n\x27êtes pas administrateur"⟩
  | some user =>
    if !user.is_admin then
      some ⟨403, .msg "Accès interdit, vous n\x27êtes pas administrateur"⟩
    else none

/-- The JSON body of `POST /loans`. -/
structure LoanBody where
  ebook_id : Option Nat
deriving Repr, DecidableEq

/-- `create_loan` of `route_loan.py` (lines 29–92): checkout. -/
def create_loan (s : Store) (identity : Nat) (body : Option LoanBody) (now : Nat) :
    Except Fault (Resp × Store) :=
  match body with
  | none => .error .badBody
  | some data =>
    if !pyTruthyNat data.ebook_id then
      .ok (⟨400, .msg "L\x27identifiant du livre est requis"⟩, s)
    else
      match findEbook s (data.ebook_id.getD 0) with
      | none => .ok (⟨404, .notFoundPage⟩, s)
      | some ebook =>
        if ebook.available_copies < 1 then
          .ok (⟨400, .msg "Aucune copie disponible pour ce livre"⟩, s)
        else
          let new_loan : Loan :=
            { id := s.next_loan_id, user_id := identity, ebook_id := ebook.id,
              loan_date := now, due_date := now + 14,
              return_date := none, is_returned := false }
          let s' : Store :=
            { s with
              ebooks := updateEbook s.ebooks ebook.id
                (fun e => { e with available_copies := e.available_copies - 1 }),
              loans := s.loans ++ [new_loan],
              next_loan_id := s.next_loan_id + 1 }
          .ok (⟨201, .loanCreated "Emprunt créé avec succès" new_loan⟩, s')

/-- `get_loans` of `route_loan.py` (lines 96–131): list loans, all of
them for an admin, only the caller-owned ones otherwise.  `user.is_admin`
on line 115 is evaluated without a `None` guard, so an identity with no
user row raises `AttributeError`. -/
def get_loans (s : Store) (identity : Nat) : Except Fault (Resp × Store) :=
  match findUser s identity with
  | none => .error .attrError
  | some user =>
    let loans :=
      if user.is_admin then s.loans
      else s.loans.filter (fun l => l.user_id == identity)
    .ok (⟨200, .loanList loans⟩, s)

/-- `update_loan` of `route_loan.py` (lines 177–222): return a loan.
`loan.ebook` on line 212 is a relationship dereference; if the ebook row
is gone it is `None` and the handler raises. -/
def update_loan (s : Store) (identity : Nat) (loan_id : Nat) (now : Nat) :
    Except Fault (Resp × Store) :=
  match findLoan s loan_id with
  | none => .ok (⟨404, .notFoundPage⟩, s)
  | some loan =>
    if loan.user_id != identity then
      .ok (⟨403, .msg "Accès interdit, vous n\x27êtes pas propriétaire de ce prêt"⟩, s)
    else if loan.is_returned then
      .ok (⟨400, .msg "Ce prêt a déjà été retourné"⟩, s)
    else
      match findEbook s loan.ebook_id with
      | none => .error .attrError
      | some ebook =>
        let loan' := { loan with is_returned := true, return_date := some now }
        let s' : Store :=
          { s with
            loans := s.loans.map (fun l => if l.id == loan_id then loan' else l),
            ebooks := updateEbook s.ebooks loan.ebook_id
              (fun e => { e with available_copies := e.available_copies + 1 }) }
        .ok (⟨200, .loanReturned
              ("Prêt du livre " ++ ebook.title ++ " retourné avec succès")
              loan'.id loan'.return_date loan'.is_returned⟩, s')

/-- `delete_loan` of `route_loan.py` (lines 270–301): admin-only hard
delete of a loan row; the ebook table is not touched. -/
def delete_loan (s : Store) (identity : Nat) (loan_id : Nat) :
    Except Fault (Resp × Store) :=
  match _require_admin s identity with
  | some r => .ok (r, s)
  | none =>
    match findLoan s loan_id with
    | none => .ok (⟨404, .notFoundPage⟩, s)
    | some _ =>
      .ok (⟨200, .msg "Prêt supprimé avec succès"⟩,
           { s with loans := s.loans.filter (fun l => l.id != loan_id) })

end Elib.route_loan

namespace Elib.route_user

/-- `_require_admin` of `route_user.py` (lines 12–33): the owner-or-admin
capable variant.  An identity with no user row yields 404 ("Utilisateur
non trouvé"); with `user_id = none` it is an admin-only check, with
`user_id = some t` it allows admins and the owner `t`. -/
def _require_admin (s : Store) (identity : Nat) (user_id : Option Nat) : Option Resp :=
  match findUser s identity with
  | none => some ⟨404, .msg "Utilisateur non trouvé"⟩
  | some user =>
    match user_id with
    | none =>
      if !user.is_admin then
        some ⟨403, .msg "Accès interdit, vous n\x27êtes pas administrateur"⟩
      else none
    | some uid =>
      if !(user.is_admin || identity == uid) then
        some ⟨403, .msg "Accès interdit, vous n\x27êtes pas propriétaire du compte ou administrateur"⟩
      else none

/-- The JSON body of `PUT /users/{id}` (all fields optional). -/
structure UserBody where
  username : Option String
  email : Option String
  password : Option String
  is_admin : Option Bool
deriving Repr, DecidableEq

/-- `update_user` of `route_user.py` (lines 170–222): owner-or-admin
partial update.  `data.get(k, current)` keeps the stored value when the
key is absent; a present password is re-hashed; `is_admin` is updatable. -/
def update_user (s : Store) (identity : Nat) (user_id : Nat) (body : Option UserBody) :
    Except Fault (Resp × Store) :=
  match _require_admin s identity (some user_id) with
  | some r => .ok (r, s)
  | none =>
    match findUser s user_id with
    | none => .ok (⟨404, .notFoundPage⟩, s)
    | some user =>
      match body with
      | none => .error .badBody
      | some data =>
        let user' : User :=
          { user with
            username := data.username.getD user.username,
            email := data.email.getD user.email,
            password := match data.password with
                        | some p => hashPassword p
                        | none => user.password,
            is_admin := data.is_admin.getD user.is_admin }
        let s' : Store :=
          { s with users := s.users.map (fun u => if u.id == user_id then user' else u) }
        .ok (⟨200, .userUpdated "Utilisateur mis à jour avec succès"
              user'.id user'.username user'.email user'.is_admin⟩, s')

/-- The JSON body of `POST /login`. -/
structure LoginBody where
  email : Option String
  password : Option String
deriving Repr, DecidableEq

/-- `login` of `route_user.py` (lines 289–329): look up by email, verify
the password against the stored hash; on any mismatch or missing user
return the same generic 401.  A successful login issues a token bound to
the user id (the 1-hour expiry is carried by the external token
provider, not the handler's return value). -/
def login (s : Store) (body : Option LoginBody) : Except Fault Resp :=
  match body with
  | none => .error .badBody
  | some data =>
    if !pyTruthyStr data.email || !pyTruthyStr data.password then
      .ok ⟨400, .msg "Email et mot de passe sont requis"⟩
    else
      match s.users.find? (fun u => u.email == data.email.getD "") with
      | some user =>
        if checkPassword (data.password.getD "") user.password then
          .ok ⟨200, .token user.id⟩
        else
          .ok ⟨401, .msg "Email ou mot de passe incorrect"⟩
      | none => .ok ⟨401, .msg "Email ou mot de passe incorrect"⟩

end Elib.route_user

namespace Elib.route_category

/-- `_require_admin` of `route_category.py` (lines 9–23): identical to
the `route_loan.py` variant — a missing user row or a non-admin user
yields the same 403. -/
def _require_admin (s : Store) (identity : Nat) : Option Resp :=
  match findUser s identity with
  | none => some ⟨403, .msg "Accès interdit, vous n\x27êtes pas administrateur"⟩
  | some user =>
    if !user.is_admin then
      some ⟨403, .msg "Accès interdit, vous n\x27êtes pas administrateur"⟩
    else none

end Elib.route_category

namespace Elib

/-- One request of the loan lifecycle, for sequences of operations
(claim C1): checkout, return, admin delete. -/
inductive LoanOp where
  | create (identity : Nat) (body : Option route_loan.LoanBody) (now : Nat)
  | ret (identity : Nat) (loan_id : Nat) (now : Nat)
  | delete (identity : Nat) (loan_id : Nat)
deriving Repr, DecidableEq

/-- The store after one loan request.  A handler that raises commits
nothing (the exception escapes before `db.session.commit()`), so the
store is unchanged on `.error`. -/
def stepStore (s : Store) : LoanOp → Store
  | .create i b n =>
    match route_loan.create_loan s i b n with
    | .ok (_, s') => s'
    | .error _ => s
  | .ret i l n =>
    match route_loan.update_loan s i l n with
    | .ok (_, s') => s'
    | .error _ => s
  | .delete i l =>
    match route_loan.delete_loan s i l with
    | .ok (_, s') => s'
    | .error _ => s

/-- The store after a sequence of loan requests. -/
def runOps (s : Store) (ops : List LoanOp) : Store :=
  ops.foldl stepStore s

/-- Every ebook row has a non-negative `available_copies`. -/
def ebooksNonneg (s : Store) : Prop :=
  ∀ e ∈ s.ebooks, 0 ≤ e.available_copies

instance (s : Store) : Decidable (ebooksNonneg s) := by
  unfold ebooksNonneg; infer_instance

end Elib

namespace Elib

theorem findEbook_mem {s : Store} {eid : Nat} {e : Ebook}
    (h : findEbook s eid = some e) : e ∈ s.ebooks ∧ e.id = eid := by
  refine ⟨List.mem_of_find?_eq_some h, ?_⟩
  simpa using List.find?_some h

theorem findUser_mem {s : Store} {uid : Nat} {u : User}
    (h : findUser s uid = some u) : u ∈ s.users ∧ u.id = uid := by
  refine ⟨List.mem_of_find?_eq_some h, ?_⟩
  simpa using List.find?_some h

theorem findLoan_mem {s : Store} {lid : Nat} {l : Loan}
    (h : findLoan s lid = some l) : l ∈ s.loans ∧ l.id = lid := by
  refine ⟨List.mem_of_find?_eq_some h, ?_⟩
  simpa using List.find?_some h

/-- `find?` commutes with a map that does not change the predicate's
verdict on any element of the list. -/
theorem find?_map_congr {α : Type} (g : α → α) (p : α → Bool) (l : List α)
    (hp : ∀ x ∈ l, p (g x) = p x) :
    (l.map g).find? p = (l.find? p).map g := by
  induction l with
  | nil => rfl
  | cons hd tl ih =>
    have hhd := hp hd (List.mem_cons_self hd tl)
    cases h : p hd with
    | true =>
      rw [List.map_cons, List.find?_cons_of_pos _ (by rw [hhd, h]),
        List.find?_cons_of_pos _ h]
      rfl
    | false =>
      have hg : ¬ p (g hd) = true := by rw [hhd, h]; exact Bool.false_ne_true
      have hh : ¬ p hd = true := by rw [h]; exact Bool.false_ne_true
      rw [List.map_cons, List.find?_cons_of_neg _ hg, List.find?_cons_of_neg _ hh]
      exact ih fun x hx => hp x (List.mem_cons_of_mem hd hx)

/-- Looking up id `tid` after an `updateEbook` at id `eid` (with an
id-preserving row function) finds the updated image of the old row. -/
theorem findEbook_updateEbook {es : List Ebook} (eid tid : Nat) (f : Ebook → Ebook)
    (hf : ∀ x, (f x).id = x.id) :
    (updateEbook es eid f).find? (fun e => e.id == tid) =
      ((es.find? (fun e => e.id == tid)).map
        (fun e => if e.id == eid then f e else e)) := by
  unfold updateEbook
  apply find?_map_congr
  intro x _
  by_cases h : (x.id == eid) = true
  · rw [if_pos h, hf]
  · rw [if_neg h]

/-- An update at `eid` keeps every row with a different id in the list. -/
theorem mem_updateEbook_of_ne {es : List Ebook} {eid : Nat} {f : Ebook → Ebook}
    {e : Ebook} (he : e ∈ es) (hne : e.id ≠ eid) : e ∈ updateEbook es eid f := by
  unfold updateEbook
  exact List.mem_map.2 ⟨e, he, by simp [hne]⟩

/-- `updateEbook` with an id-preserving row function leaves the list of
primary keys unchanged. -/
theorem updateEbook_map_id {es : List Ebook} {eid : Nat} {f : Ebook → Ebook}
    (hf : ∀ x, (f x).id = x.id) :
    (updateEbook es eid f).map Ebook.id = es.map Ebook.id := by
  unfold updateEbook
  rw [List.map_map]
  apply List.map_congr_left
  intro e _
  show (if e.id == eid then f e else e).id = e.id
  by_cases h : (e.id == eid) = true
  · rw [if_pos h, hf]
  · rw [if_neg h]

/-- With distinct primary keys, a row found by id is the only row with
that id. -/
theorem find_id_unique {es : List Ebook} {eid : Nat} {e0 : Ebook}
    (hn : (es.map Ebook.id).Nodup)
    (h : es.find? (fun e => e.id == eid) = some e0) :
    ∀ e ∈ es, e.id = eid → e = e0 := by
  intro e he hid
  have h0m := List.mem_of_find?_eq_some h
  have h0id : e0.id = eid := by simpa using List.find?_some h
  exact List.inj_on_of_nodup_map hn he h0m (by rw [hid, h0id])

/-- Non-negativity of `available_copies` survives an update whose row
function keeps the touched rows non-negative. -/
theorem updateEbook_nonneg {es : List Ebook} {eid : Nat} {f : Ebook → Ebook}
    (h : ∀ e ∈ es, 0 ≤ e.available_copies)
    (hf : ∀ e ∈ es, e.id = eid → 0 ≤ (f e).available_copies) :
    ∀ e ∈ updateEbook es eid f, 0 ≤ e.available_copies := by
  intro e' he'
  unfold updateEbook at he'
  rcases List.mem_map.1 he' with ⟨e, he, rfl⟩
  by_cases hid : (e.id == eid) = true
  · simpa [hid] using hf e he (by simpa using hid)
  · simpa [hid] using h e he

end Elib

namespace Elib

/-- Everything `create_loan` can commit: either the store is unchanged
(an error response), or some ebook with at least one copy was
decremented and a loan row appended. -/
theorem create_loan_cases {s : Store} {idn : Nat} {b : Option route_loan.LoanBody}
    {now : Nat} {r : Resp} {s' : Store}
    (h : route_loan.create_loan s idn b now = .ok (r, s')) :
    s' = s ∨
    ∃ e, e ∈ s.ebooks ∧ 1 ≤ e.available_copies ∧
      s'.ebooks = updateEbook s.ebooks e.id
        (fun x => { x with available_copies := x.available_copies - 1 }) := by
  cases b with
  | none => simp [route_loan.create_loan] at h
  | some data =>
    simp only [route_loan.create_loan] at h
    by_cases h1 : (!pyTruthyNat data.ebook_id) = true
    · rw [if_pos h1] at h
      simp only [Except.ok.injEq, Prod.mk.injEq] at h
      exact Or.inl h.2.symm
    · rw [if_neg h1] at h
      cases hfind : findEbook s (data.ebook_id.getD 0) with
      | none =>
        rw [hfind] at h
        simp only [Except.ok.injEq, Prod.mk.injEq] at h
        exact Or.inl h.2.symm
      | some e =>
        rw [hfind] at h
        dsimp only [] at h
        by_cases h2 : e.available_copies < 1
        · rw [if_pos h2] at h
          simp only [Except.ok.injEq, Prod.mk.injEq] at h
          exact Or.inl h.2.symm
        · rw [if_neg h2] at h
          simp only [Except.ok.injEq, Prod.mk.injEq] at h
          refine Or.inr ⟨e, (findEbook_mem hfind).1, by omega, ?_⟩
          rw [← h.2]

end Elib

namespace Elib

/-- Everything `update_loan` can commit: either the store is unchanged,
or the returned loan's ebook was incremented (and the loan row rewritten). -/
theorem update_loan_cases {s : Store} {idn lid now : Nat} {r : Resp} {s' : Store}
    (h : route_loan.update_loan s idn lid now = .ok (r, s')) :
    s' = s ∨
    ∃ l, findLoan s lid = some l ∧
      s'.ebooks = updateEbook s.ebooks l.ebook_id
        (fun x => { x with available_copies := x.available_copies + 1 }) := by
  simp only [route_loan.update_loan] at h
  cases hfind : findLoan s lid with
  | none =>
    rw [hfind] at h
    simp only [Except.ok.injEq, Prod.mk.injEq] at h
    exact Or.inl h.2.symm
  | some loan =>
    rw [hfind] at h
    dsimp only [] at h
    by_cases h1 : (loan.user_id != idn) = true
    · rw [if_pos h1] at h
      simp only [Except.ok.injEq, Prod.mk.injEq] at h
      exact Or.inl h.2.symm
    · rw [if_neg h1] at h
      by_cases h2 : loan.is_returned = true
      · rw [if_pos h2] at h
        simp only [Except.ok.injEq, Prod.mk.injEq] at h
        exact Or.inl h.2.symm
      · rw [if_neg h2] at h
        cases hfe : findEbook s loan.ebook_id with
        | none => rw [hfe] at h; exact absurd h (by simp)
        | some e =>
          rw [hfe] at h
          simp only [Except.ok.injEq, Prod.mk.injEq] at h
          exact Or.inr ⟨loan, rfl, by rw [← h.2]⟩

/-- `delete_loan` never touches the ebook or user tables. -/
theorem delete_loan_ebooks {s : Store} {idn lid : Nat} {r : Resp} {s' : Store}
    (h : route_loan.delete_loan s idn lid = .ok (r, s')) :
    s'.ebooks = s.ebooks ∧ s'.users = s.users := by
  simp only [route_loan.delete_loan] at h
  cases hadm : route_loan._require_admin s idn with
  | some resp =>
    rw [hadm] at h
    simp only [Except.ok.injEq, Prod.mk.injEq] at h
    rw [← h.2]
    exact ⟨rfl, rfl⟩
  | none =>
    rw [hadm] at h
    dsimp only [] at h
    cases hfind : findLoan s lid with
    | none =>
      rw [hfind] at h
      simp only [Except.ok.injEq, Prod.mk.injEq] at h
      rw [← h.2]
      exact ⟨rfl, rfl⟩
    | some loan =>
      rw [hfind] at h
      simp only [Except.ok.injEq, Prod.mk.injEq] at h
      rw [← h.2]
      exact ⟨rfl, rfl⟩

/-- One loan request preserves non-negativity of every
`available_copies` and the list of ebook primary keys. -/
theorem stepStore_nonneg_ids (s : Store) (op : LoanOp)
    (hnn : ebooksNonneg s) (hid : (s.ebooks.map Ebook.id).Nodup) :
    ebooksNonneg (stepStore s op) ∧
      ((stepStore s op).ebooks.map Ebook.id).Nodup := by
  cases op with
  | create i b n =>
    cases hres : route_loan.create_loan s i b n with
    | error f => simp only [stepStore, hres]; exact ⟨hnn, hid⟩
    | ok p =>
      obtain ⟨r, s2⟩ := p
      simp only [stepStore, hres]
      rcases create_loan_cases hres with hsame | ⟨e, hmem, hcop, heb⟩
      · rw [hsame]; exact ⟨hnn, hid⟩
      · have hids : s2.ebooks.map Ebook.id = s.ebooks.map Ebook.id := by
          rw [heb]; exact updateEbook_map_id (fun x => rfl)
        constructor
        · intro x hx
          rw [heb] at hx
          refine updateEbook_nonneg hnn ?_ x hx
          intro y hy hyid
          have hye : y = e := List.inj_on_of_nodup_map hid hy hmem hyid
          subst hye
          dsimp only []
          omega
        · rw [hids]; exact hid
  | ret i l n =>
    cases hres : route_loan.update_loan s i l n with
    | error f => simp only [stepStore, hres]; exact ⟨hnn, hid⟩
    | ok p =>
      obtain ⟨r, s2⟩ := p
      simp only [stepStore, hres]
      rcases update_loan_cases hres with hsame | ⟨loan, hfind, heb⟩
      · rw [hsame]; exact ⟨hnn, hid⟩
      · have hids : s2.ebooks.map Ebook.id = s.ebooks.map Ebook.id := by
          rw [heb]; exact updateEbook_map_id (fun x => rfl)
        constructor
        · intro x hx
          rw [heb] at hx
          refine updateEbook_nonneg hnn ?_ x hx
          intro y hy _
          have := hnn y hy
          dsimp only []
          omega
        · rw [hids]; exact hid
  | delete i l =>
    cases hres : route_loan.delete_loan s i l with
    | error f => simp only [stepStore, hres]; exact ⟨hnn, hid⟩
    | ok p =>
      obtain ⟨r, s2⟩ := p
      simp only [stepStore, hres]
      have heb := (delete_loan_ebooks hres).1
      constructor
      · intro x hx; rw [heb] at hx; exact hnn x hx
      · rw [heb]; exact hid

/-- Non-negativity of every ebook's `available_copies` is preserved by
any sequence of loan requests. -/
theorem runOps_nonneg : ∀ (ops : List LoanOp) (s : Store),
    ebooksNonneg s → (s.ebooks.map Ebook.id).Nodup →
    ebooksNonneg (runOps s ops) := by
  intro ops
  induction ops with
  | nil => intro s hnn _; exact hnn
  | cons op ops ih =>
    intro s hnn hid
    have h := stepStore_nonneg_ids s op hnn hid
    exact ih _ h.1 h.2

end Elib

namespace Elib

/-- C1: For every ebook and every sequence of loan operations
(`create_loan`, `update_loan` i.e. return, `delete_loan`), the ebook's
`available_copies` never becomes negative; in particular, every
`create_loan` request for an ebook whose `available_copies` is 0 fails
with status 400, does not decrement `available_copies`, and inserts no
loan row (the store is returned unchanged).  Hypotheses: the initial
store satisfies the invariant and has distinct ebook primary keys. -/
theorem claim_C1 (s : Store) (hnn : ebooksNonneg s)
    (hid : (s.ebooks.map Ebook.id).Nodup) :
    (∀ ops : List LoanOp, ebooksNonneg (runOps s ops)) ∧
    (∀ idn eid now e, findEbook s eid = some e → e.available_copies = 0 →
      ∃ m, route_loan.create_loan s idn (some ⟨some eid⟩) now =
        .ok (⟨400, Body.msg m⟩, s)) := by
  constructor
  · intro ops
    exact runOps_nonneg ops s hnn hid
  · intro idn eid now e hfind hcop
    by_cases h0 : eid = 0
    · subst h0
      exact ⟨"L\x27identifiant du livre est requis", by
        simp [route_loan.create_loan, pyTruthyNat]⟩
    · refine ⟨"Aucune copie disponible pour ce livre", ?_⟩
      have ht : (!pyTruthyNat (some eid)) = false := by
        simp [pyTruthyNat, h0]
      simp only [route_loan.create_loan, ht, Bool.false_eq_true, if_false,
        Option.getD_some, hfind]
      rw [if_pos (by rw [hcop]; decide)]

end Elib

namespace Elib

/-- A concrete store for the C1 witness: one ebook with zero copies. -/
def w1Store : Store :=
  { users := [], ebooks := [⟨1, "b", 0⟩], loans := [], categories := [],
    next_loan_id := 1, next_user_id := 1, next_category_id := 1 }

/-- Witness for C1 at a concrete store and operation sequence. -/
theorem claim_C1_witness :
    ebooksNonneg (runOps w1Store
      [.create 7 (some ⟨some 1⟩) 0, .ret 7 1 3, .delete 7 1]) ∧
    ∃ m, route_loan.create_loan w1Store 7 (some ⟨some 1⟩) 0 =
      .ok (⟨400, Body.msg m⟩, w1Store) := by
  have h := claim_C1 w1Store (by decide) (by decide)
  exact ⟨h.1 _, h.2 7 1 0 ⟨1, "b", 0⟩ rfl rfl⟩

/-- C2: For every authenticated `create_loan` request: 400 when
`ebook_id` is absent from the body; 404 when the ebook id does not
resolve; 400 ("no copy available") when `available_copies < 1`;
otherwise 201, the ebook's `available_copies` decremented by exactly 1
(rows with other ids untouched), and exactly one new loan appended whose
owner is the caller's identity, with `is_returned = false`, no
`return_date`, and `due_date = loan_date + 14` days. -/
theorem claim_C2 (s : Store) (idn now : Nat) :
    (route_loan.create_loan s idn (some ⟨none⟩) now =
      .ok (⟨400, .msg "L\x27identifiant du livre est requis"⟩, s)) ∧
    (∀ eid, eid ≠ 0 → findEbook s eid = none →
      route_loan.create_loan s idn (some ⟨some eid⟩) now =
        .ok (⟨404, .notFoundPage⟩, s)) ∧
    (∀ eid e, eid ≠ 0 → findEbook s eid = some e → e.available_copies < 1 →
      route_loan.create_loan s idn (some ⟨some eid⟩) now =
        .ok (⟨400, .msg "Aucune copie disponible pour ce livre"⟩, s)) ∧
    (∀ eid e, eid ≠ 0 → findEbook s eid = some e → 1 ≤ e.available_copies →
      ∃ nl s', route_loan.create_loan s idn (some ⟨some eid⟩) now =
          .ok (⟨201, .loanCreated "Emprunt créé avec succès" nl⟩, s') ∧
        nl.user_id = idn ∧ nl.ebook_id = eid ∧ nl.is_returned = false ∧
        nl.return_date = none ∧ nl.loan_date = now ∧
        nl.due_date = nl.loan_date + 14 ∧
        s'.loans = s.loans ++ [nl] ∧ s'.users = s.users ∧
        findEbook s' eid =
          some { e with available_copies := e.available_copies - 1 } ∧
        (∀ x ∈ s.ebooks, x.id ≠ eid → x ∈ s'.ebooks)) := by
  refine ⟨rfl, ?_, ?_, ?_⟩
  · intro eid hne hfind
    have ht : (!pyTruthyNat (some eid)) = false := by
      simp [pyTruthyNat, hne]
    simp only [route_loan.create_loan, ht, Bool.false_eq_true, if_false,
      Option.getD_some, hfind]
  · intro eid e hne hfind hcop
    have ht : (!pyTruthyNat (some eid)) = false := by
      simp [pyTruthyNat, hne]
    simp only [route_loan.create_loan, ht, Bool.false_eq_true, if_false,
      Option.getD_some, hfind]
    rw [if_pos hcop]
  · intro eid e hne hfind hcop
    have heid : e.id = eid := (findEbook_mem hfind).2
    have ht : (!pyTruthyNat (some eid)) = false := by
      simp [pyTruthyNat, hne]
    refine ⟨{ id := s.next_loan_id, user_id := idn, ebook_id := e.id,
              loan_date := now, due_date := now + 14,
              return_date := none, is_returned := false },
            { s with
              ebooks := updateEbook s.ebooks e.id
                (fun x => { x with available_copies := x.available_copies - 1 }),
              loans := s.loans ++
                [{ id := s.next_loan_id, user_id := idn, ebook_id := e.id,
                   loan_date := now, due_date := now + 14,
                   return_date := none, is_returned := false }],
              next_loan_id := s.next_loan_id + 1 },
            ?_, rfl, heid, rfl, rfl, rfl, rfl, rfl, rfl, ?_, ?_⟩
    · simp only [route_loan.create_loan, ht, Bool.false_eq_true, if_false,
        Option.getD_some, hfind]
      rw [if_neg (not_lt.2 hcop)]
    · show (updateEbook s.ebooks e.id _).find? (fun x => x.id == eid) = _
      rw [findEbook_updateEbook e.id eid
        (fun x => { x with available_copies := x.available_copies - 1 })
        (fun x => rfl),
        show List.find? (fun x => x.id == eid) s.ebooks = some e from hfind]
      simp
    · intro x hx hxne
      exact mem_updateEbook_of_ne hx (by rw [heid]; exact hxne)

/-- Witness for C2 at a concrete store. -/
def w2Store : Store :=
  { users := [], ebooks := [⟨1, "b", 2⟩, ⟨2, "c", 5⟩], loans := [],
    categories := [],
    next_loan_id := 4, next_user_id := 1, next_category_id := 1 }

/-- Witness for C2: all four branches at concrete inputs. -/
theorem claim_C2_witness :
    (route_loan.create_loan w2Store 9 (some ⟨none⟩) 10 =
      .ok (⟨400, .msg "L\x27identifiant du livre est requis"⟩, w2Store)) ∧
    (route_loan.create_loan w2Store 9 (some ⟨some 3⟩) 10 =
      .ok (⟨404, .notFoundPage⟩, w2Store)) ∧
    (∃ nl s', route_loan.create_loan w2Store 9 (some ⟨some 1⟩) 10 =
        .ok (⟨201, .loanCreated "Emprunt créé avec succès" nl⟩, s') ∧
      nl.user_id = 9 ∧ nl.ebook_id = 1 ∧ nl.is_returned = false ∧
      nl.return_date = none ∧ nl.loan_date = 10 ∧
      nl.due_date = nl.loan_date + 14 ∧
      s'.loans = w2Store.loans ++ [nl] ∧ s'.users = w2Store.users ∧
      findEbook s' 1 = some ⟨1, "b", 1⟩ ∧
      (∀ x ∈ w2Store.ebooks, x.id ≠ 1 → x ∈ s'.ebooks)) := by
  have h := claim_C2 w2Store 9 10
  refine ⟨h.1, h.2.1 3 (by decide) rfl, ?_⟩
  obtain ⟨nl, s', heq, hrest⟩ :=
    h.2.2.2 1 ⟨1, "b", 2⟩ (by decide) rfl (by decide)
  exact ⟨nl, s', heq, hrest⟩

end Elib

namespace Elib

/-- C3: For every authenticated `update_loan` (return) request: 404 when
the loan id does not resolve; 403 when the requester is not the loan's
owner — the code compares only `loan.user_id` with the identity, so this
covers an admin who is not the owner; 400 when the loan is already
returned, with the store unchanged (no double increment); otherwise 200,
`is_returned` set to true, `return_date` set to now, and the associated
ebook's `available_copies` incremented by exactly 1 (other rows
untouched).  Since the success branch requires `is_returned = false` and
sets it to true, the transition fires at most once per loan. -/
theorem claim_C3 (s : Store) (idn lid now : Nat) :
    (findLoan s lid = none →
      route_loan.update_loan s idn lid now = .ok (⟨404, .notFoundPage⟩, s)) ∧
    (∀ l, findLoan s lid = some l → l.user_id ≠ idn →
      route_loan.update_loan s idn lid now =
        .ok (⟨403, .msg "Accès interdit, vous n\x27êtes pas propriétaire de ce prêt"⟩, s)) ∧
    (∀ l, findLoan s lid = some l → l.user_id = idn → l.is_returned = true →
      route_loan.update_loan s idn lid now =
        .ok (⟨400, .msg "Ce prêt a déjà été retourné"⟩, s)) ∧
    (∀ l e, findLoan s lid = some l → l.user_id = idn → l.is_returned = false →
      findEbook s l.ebook_id = some e →
      ∃ s', route_loan.update_loan s idn lid now =
          .ok (⟨200, .loanReturned
            ("Prêt du livre " ++ e.title ++ " retourné avec succès")
            l.id (some now) true⟩, s') ∧
        findLoan s' lid =
          some { l with is_returned := true, return_date := some now } ∧
        findEbook s' l.ebook_id =
          some { e with available_copies := e.available_copies + 1 } ∧
        (∀ x ∈ s.ebooks, x.id ≠ l.ebook_id → x ∈ s'.ebooks) ∧
        (∀ x ∈ s.loans, x.id ≠ lid → x ∈ s'.loans) ∧
        s'.users = s.users) := by
  refine ⟨?_, ?_, ?_, ?_⟩
  · intro hfind
    simp only [route_loan.update_loan, hfind]
  · intro l hfind hne
    simp only [route_loan.update_loan, hfind]
    rw [if_pos (by simpa using hne)]
  · intro l hfind hown hret
    simp only [route_loan.update_loan, hfind]
    rw [if_neg (by simp [hown]), if_pos hret]
  · intro l e hfind hown hret hfe
    have hlid : l.id = lid := (findLoan_mem hfind).2
    have heid : e.id = l.ebook_id := (findEbook_mem hfe).2
    refine ⟨{ s with
        loans := s.loans.map (fun x => if x.id == lid
          then { l with is_returned := true, return_date := some now } else x),
        ebooks := updateEbook s.ebooks l.ebook_id
          (fun x => { x with available_copies := x.available_copies + 1 }) },
      ?_, ?_, ?_, ?_, ?_, rfl⟩
    · simp only [route_loan.update_loan, hfind]
      rw [if_neg (by simp [hown]), if_neg (by simp [hret])]
      simp only [hfe]
    · have hp : ∀ x ∈ s.loans,
          ((if x.id == lid
            then ({ l with is_returned := true, return_date := some now } : Loan)
            else x).id == lid) = (x.id == lid) := by
        intro x _
        by_cases hx : (x.id == lid) = true
        · rw [if_pos hx, hx]
          simp [hlid]
        · rw [if_neg hx]
      show List.find? (fun x => x.id == lid)
        (List.map (fun x => if x.id == lid
          then ({ l with is_returned := true, return_date := some now } : Loan)
          else x) s.loans) =
        some { l with is_returned := true, return_date := some now }
      rw [find?_map_congr _ _ s.loans hp,
        show List.find? (fun x => x.id == lid) s.loans = some l from hfind]
      simp [hlid]
    · show List.find? (fun x => x.id == l.ebook_id)
        (updateEbook s.ebooks l.ebook_id
          (fun x => { x with available_copies := x.available_copies + 1 })) = _
      rw [findEbook_updateEbook l.ebook_id l.ebook_id
        (fun x => { x with available_copies := x.available_copies + 1 })
        (fun x => rfl),
        show List.find? (fun x => x.id == l.ebook_id) s.ebooks = some e from hfe]
      simp [heid]
    · intro x hx hxne
      exact mem_updateEbook_of_ne hx hxne
    · intro x hx hxne
      exact List.mem_map.2 ⟨x, hx, by simp [hxne]⟩

/-- A concrete store for the C3 witness: one user, one ebook, two loans
(one active owned by user 7, one already returned). -/
def w3Store : Store :=
  { users := [],
    ebooks := [⟨1, "b", 0⟩],
    loans := [⟨1, 7, 1, 0, 14, none, false⟩, ⟨2, 7, 1, 0, 14, some 3, true⟩],
    categories := [],
    next_loan_id := 3, next_user_id := 1, next_category_id := 1 }

/-- Witness for C3: all four branches at concrete inputs. -/
theorem claim_C3_witness :
    (route_loan.update_loan w3Store 7 9 5 = .ok (⟨404, .notFoundPage⟩, w3Store)) ∧
    (route_loan.update_loan w3Store 8 1 5 =
      .ok (⟨403, .msg "Accès interdit, vous n\x27êtes pas propriétaire de ce prêt"⟩, w3Store)) ∧
    (route_loan.update_loan w3Store 7 2 5 =
      .ok (⟨400, .msg "Ce prêt a déjà été retourné"⟩, w3Store)) ∧
    (∃ s', route_loan.update_loan w3Store 7 1 5 =
        .ok (⟨200, .loanReturned "Prêt du livre b retourné avec succès"
          1 (some 5) true⟩, s') ∧
      findLoan s' 1 = some ⟨1, 7, 1, 0, 14, some 5, true⟩ ∧
      findEbook s' 1 = some ⟨1, "b", 1⟩ ∧ s'.users = w3Store.users) := by
  have h := claim_C3 w3Store 7 1 5
  have h403 := (claim_C3 w3Store 8 1 5).2.1 ⟨1, 7, 1, 0, 14, none, false⟩ rfl
    (by decide)
  have h404 := (claim_C3 w3Store 7 9 5).1 rfl
  have h400 := (claim_C3 w3Store 7 2 5).2.2.1 ⟨2, 7, 1, 0, 14, some 3, true⟩
    rfl rfl rfl
  obtain ⟨s', heq, hfl, hfe, _, _, hus⟩ :=
    h.2.2.2 ⟨1, 7, 1, 0, 14, none, false⟩ ⟨1, "b", 0⟩ rfl rfl rfl rfl
  exact ⟨h404, h403, h400, s', heq, hfl, hfe, hus⟩

end Elib

namespace Elib

/-- C5: For an admin-gated operation invoked with a bearer identity that
does not resolve to an existing user: the owner-or-admin capable variant
(`route_user._require_admin`) responds 404 "user not found", while the
admin-only variants (`route_loan._require_admin`,
`route_category._require_admin`) respond 403. -/
theorem claim_C5 (s : Store) (idn target : Nat) (h : findUser s idn = none) :
    route_user._require_admin s idn (some target) =
      some ⟨404, .msg "Utilisateur non trouvé"⟩ ∧
    route_loan._require_admin s idn =
      some ⟨403, .msg "Accès interdit, vous n\x27êtes pas administrateur"⟩ ∧
    route_category._require_admin s idn =
      some ⟨403, .msg "Accès interdit, vous n\x27êtes pas administrateur"⟩ := by
  refine ⟨?_, ?_, ?_⟩
  · simp only [route_user._require_admin, h]
  · simp only [route_loan._require_admin, h]
  · simp only [route_category._require_admin, h]

/-- Witness for C5 on a store with no user rows. -/
theorem claim_C5_witness :
    route_user._require_admin ⟨[], [], [], [], 1, 1, 1⟩ 5 (some 2) =
      some ⟨404, .msg "Utilisateur non trouvé"⟩ ∧
    route_loan._require_admin ⟨[], [], [], [], 1, 1, 1⟩ 5 =
      some ⟨403, .msg "Accès interdit, vous n\x27êtes pas administrateur"⟩ ∧
    route_category._require_admin ⟨[], [], [], [], 1, 1, 1⟩ 5 =
      some ⟨403, .msg "Accès interdit, vous n\x27êtes pas administrateur"⟩ :=
  claim_C5 ⟨[], [], [], [], 1, 1, 1⟩ 5 2 rfl

/-- C6: A login with an existing email but a wrong password and a login
with a nonexistent email both return exactly
`401 {"msg": "Email ou mot de passe incorrect"}` — the two responses are
identical, so the caller cannot distinguish the two cases. -/
theorem claim_C6 (s : Store) (em1 pw1 em2 pw2 : String) (u : User)
    (hem1 : em1 ≠ "") (hpw1 : pw1 ≠ "") (hem2 : em2 ≠ "") (hpw2 : pw2 ≠ "")
    (hfound : s.users.find? (fun x => x.email == em1) = some u)
    (hwrong : checkPassword pw1 u.password = false)
    (hmissing : s.users.find? (fun x => x.email == em2) = none) :
    route_user.login s (some ⟨some em1, some pw1⟩) =
      .ok ⟨401, .msg "Email ou mot de passe incorrect"⟩ ∧
    route_user.login s (some ⟨some em2, some pw2⟩) =
      .ok ⟨401, .msg "Email ou mot de passe incorrect"⟩ ∧
    route_user.login s (some ⟨some em1, some pw1⟩) =
      route_user.login s (some ⟨some em2, some pw2⟩) := by
  have h1 : route_user.login s (some ⟨some em1, some pw1⟩) =
      .ok ⟨401, .msg "Email ou mot de passe incorrect"⟩ := by
    have ht : (!pyTruthyStr (some em1) || !pyTruthyStr (some pw1)) = false := by
      simp [pyTruthyStr, hem1, hpw1]
    simp only [route_user.login, ht, Bool.false_eq_true, if_false,
      Option.getD_some, hfound, hwrong]
  have h2 : route_user.login s (some ⟨some em2, some pw2⟩) =
      .ok ⟨401, .msg "Email ou mot de passe incorrect"⟩ := by
    have ht : (!pyTruthyStr (some em2) || !pyTruthyStr (some pw2)) = false := by
      simp [pyTruthyStr, hem2, hpw2]
    simp only [route_user.login, ht, Bool.false_eq_true, if_false,
      Option.getD_some, hmissing]
  exact ⟨h1, h2, h1.trans h2.symm⟩

/-- A concrete store for the C6 witness: one user whose password hash
is that of "pw". -/
def w6Store : Store :=
  { users := [⟨1, "n", "a@b", hashPassword "pw", false, 0⟩],
    ebooks := [], loans := [], categories := [],
    next_loan_id := 1, next_user_id := 1, next_category_id := 1 }

/-- Witness for C6: wrong password for an existing email versus a
nonexistent email, indistinguishable 401s. -/
theorem claim_C6_witness :
    route_user.login w6Store (some ⟨some "a@b", some "oops"⟩) =
      .ok ⟨401, .msg "Email ou mot de passe incorrect"⟩ ∧
    route_user.login w6Store (some ⟨some "c@d", some "pw"⟩) =
      .ok ⟨401, .msg "Email ou mot de passe incorrect"⟩ ∧
    route_user.login w6Store (some ⟨some "a@b", some "oops"⟩) =
      route_user.login w6Store (some ⟨some "c@d", some "pw"⟩) :=
  claim_C6 w6Store "a@b" "oops" "c@d" "pw"
    ⟨1, "n", "a@b", hashPassword "pw", false, 0⟩
    (by decide) (by decide) (by decide) (by decide) (by decide) (by decide)
    (by decide)

/-- C7: For every authenticated `get_loans` request whose caller's user
record exists: an admin receives every loan in the store; a non-admin
receives exactly the loans whose `user_id` equals the caller's identity. -/
theorem claim_C7 (s : Store) (idn : Nat) (u : User)
    (hu : findUser s idn = some u) :
    (u.is_admin = true →
      route_loan.get_loans s idn = .ok (⟨200, .loanList s.loans⟩, s)) ∧
    (u.is_admin = false →
      ∃ L, route_loan.get_loans s idn = .ok (⟨200, .loanList L⟩, s) ∧
        ∀ l, l ∈ L ↔ (l ∈ s.loans ∧ l.user_id = idn)) := by
  constructor
  · intro ha
    simp only [route_loan.get_loans, hu, ha, if_true]
  · intro ha
    refine ⟨s.loans.filter (fun l => l.user_id == idn), ?_, ?_⟩
    · simp only [route_loan.get_loans, hu, ha, Bool.false_eq_true, if_false]
    · intro l
      rw [List.mem_filter]
      simp

/-- A concrete store for the C7 witness: an admin, a non-admin, and
three loans across two owners. -/
def w7Store : Store :=
  { users := [⟨1, "a", "a@b", "h", true, 0⟩, ⟨2, "n", "c@d", "h", false, 0⟩],
    ebooks := [],
    loans := [⟨1, 2, 1, 0, 14, none, false⟩, ⟨2, 3, 1, 0, 14, none, false⟩,
              ⟨3, 2, 2, 1, 15, none, false⟩],
    categories := [],
    next_loan_id := 4, next_user_id := 1, next_category_id := 1 }

/-- Witness for C7: the admin sees all three loans; user 2 sees exactly
their own two. -/
theorem claim_C7_witness :
    route_loan.get_loans w7Store 1 =
      .ok (⟨200, .loanList w7Store.loans⟩, w7Store) ∧
    (∃ L, route_loan.get_loans w7Store 2 = .ok (⟨200, .loanList L⟩, w7Store) ∧
      ∀ l, l ∈ L ↔ (l ∈ w7Store.loans ∧ l.user_id = 2)) := by
  have h1 := (claim_C7 w7Store 1 ⟨1, "a", "a@b", "h", true, 0⟩ rfl).1 rfl
  have h2 := (claim_C7 w7Store 2 ⟨2, "n", "c@d", "h", false, 0⟩ rfl).2 rfl
  exact ⟨h1, h2⟩

end Elib

namespace Elib

/-- C9: For every admin-invoked `delete_loan` on an existing loan —
returned or still active — the loan row is removed and the ebook table
(every field of every ebook, in particular `available_copies`) and the
user table are unchanged: no inventory adjustment happens on delete. -/
theorem claim_C9 (s : Store) (idn lid : Nat) (u : User) (l : Loan)
    (hu : findUser s idn = some u) (ha : u.is_admin = true)
    (hl : findLoan s lid = some l) :
    ∃ s', route_loan.delete_loan s idn lid =
        .ok (⟨200, .msg "Prêt supprimé avec succès"⟩, s') ∧
      s'.ebooks = s.ebooks ∧ s'.users = s.users ∧
      (∀ x ∈ s'.loans, x.id ≠ lid) ∧
      (∀ x ∈ s.loans, x.id ≠ lid → x ∈ s'.loans) := by
  have hadm : route_loan._require_admin s idn = none := by
    simp only [route_loan._require_admin, hu, ha]
    rfl
  refine ⟨{ s with loans := s.loans.filter (fun x => x.id != lid) },
    ?_, rfl, rfl, ?_, ?_⟩
  · simp only [route_loan.delete_loan, hadm, hl]
  · intro x hx
    have := (List.mem_filter.1 hx).2
    simpa using this
  · intro x hx hne
    exact List.mem_filter.2 ⟨hx, by simpa using hne⟩

/-- A concrete store for the C9 witness: an admin and one active loan. -/
def w9Store : Store :=
  { users := [⟨1, "a", "a@b", "h", true, 0⟩],
    ebooks := [⟨1, "b", 0⟩],
    loans := [⟨1, 2, 1, 0, 14, none, false⟩],
    categories := [],
    next_loan_id := 2, next_user_id := 1, next_category_id := 1 }

/-- Witness for C9: deleting the active loan leaves ebooks (still at 0
copies) and users untouched. -/
theorem claim_C9_witness :
    ∃ s', route_loan.delete_loan w9Store 1 1 =
        .ok (⟨200, .msg "Prêt supprimé avec succès"⟩, s') ∧
      s'.ebooks = w9Store.ebooks ∧ s'.users = w9Store.users ∧
      (∀ x ∈ s'.loans, x.id ≠ 1) ∧
      (∀ x ∈ w9Store.loans, x.id ≠ 1 → x ∈ s'.loans) :=
  claim_C9 w9Store 1 1 ⟨1, "a", "a@b", "h", true, 0⟩
    ⟨1, 2, 1, 0, 14, none, false⟩ rfl rfl rfl

/-- C10: For every `update_user` request authorized as owner-or-admin on
an existing user: each of username, email, password and `is_admin`
omitted from the body keeps its stored value; a present password is
stored re-hashed; a present `is_admin` is stored as supplied — in
particular a non-admin owner (`hauth` by identity) can set their own
`is_admin` to true through this path. -/
theorem claim_C10 (s : Store) (idn target : Nat) (caller u : User)
    (b : route_user.UserBody)
    (hc : findUser s idn = some caller)
    (hauth : caller.is_admin = true ∨ idn = target)
    (hu : findUser s target = some u) :
    ∃ s' u' rb, route_user.update_user s idn target (some b) =
        .ok (⟨200, rb⟩, s') ∧
      findUser s' target = some u' ∧
      u'.id = u.id ∧
      u'.username = b.username.getD u.username ∧
      u'.email = b.email.getD u.email ∧
      u'.password = (match b.password with
        | some p => hashPassword p
        | none => u.password) ∧
      u'.is_admin = b.is_admin.getD u.is_admin ∧
      u'.created_at = u.created_at := by
  have hutid : u.id = target := (findUser_mem hu).2
  have hcond : (caller.is_admin || idn == target) = true := by
    rcases hauth with h | h
    · simp [h]
    · simp [h]
  have hadm : route_user._require_admin s idn (some target) = none := by
    simp only [route_user._require_admin, hc, hcond]
    rfl
  refine ⟨{ s with users := s.users.map (fun x => if x.id == target
      then ({ u with
        username := b.username.getD u.username,
        email := b.email.getD u.email,
        password := match b.password with
          | some p => hashPassword p
          | none => u.password,
        is_admin := b.is_admin.getD u.is_admin } : User)
      else x) },
    { u with
      username := b.username.getD u.username,
      email := b.email.getD u.email,
      password := match b.password with
        | some p => hashPassword p
        | none => u.password,
      is_admin := b.is_admin.getD u.is_admin },
    .userUpdated "Utilisateur mis à jour avec succès" u.id
      (b.username.getD u.username) (b.email.getD u.email)
      (b.is_admin.getD u.is_admin),
    ?_, ?_, rfl, rfl, rfl, rfl, rfl, rfl⟩
  · simp only [route_user.update_user, hadm, hu]
  · have hp : ∀ x ∈ s.users,
        ((if x.id == target
          then ({ u with
            username := b.username.getD u.username,
            email := b.email.getD u.email,
            password := match b.password with
              | some p => hashPassword p
              | none => u.password,
            is_admin := b.is_admin.getD u.is_admin } : User)
          else x).id == target) = (x.id == target) := by
      intro x _
      by_cases hx : (x.id == target) = true
      · rw [if_pos hx, hx]
        simp [hutid]
      · rw [if_neg hx]
    show List.find? (fun x => x.id == target)
      (List.map (fun x => if x.id == target
        then ({ u with
          username := b.username.getD u.username,
          email := b.email.getD u.email,
          password := match b.password with
            | some p => hashPassword p
            | none => u.password,
          is_admin := b.is_admin.getD u.is_admin } : User)
        else x) s.users) =
      some { u with
        username := b.username.getD u.username,
        email := b.email.getD u.email,
        password := match b.password with
          | some p => hashPassword p
          | none => u.password,
        is_admin := b.is_admin.getD u.is_admin }
    rw [find?_map_congr _ _ s.users hp,
      show List.find? (fun x => x.id == target) s.users = some u from hu]
    simp [hutid]

/-- A concrete store for the C10 witness: a single non-admin user. -/
def w10Store : Store :=
  { users := [⟨1, "n", "a@b", hashPassword "pw", false, 3⟩],
    ebooks := [], loans := [], categories := [],
    next_loan_id := 1, next_user_id := 1, next_category_id := 1 }

/-- Witness for C10: the non-admin owner of account 1 sends only
`is_admin: true`; every other field is retained and the flag flips. -/
theorem claim_C10_witness :
    ∃ s' u' rb, route_user.update_user w10Store 1 1
        (some ⟨none, none, none, some true⟩) = .ok (⟨200, rb⟩, s') ∧
      findUser s' 1 = some u' ∧
      u'.id = 1 ∧ u'.username = "n" ∧ u'.email = "a@b" ∧
      u'.password = hashPassword "pw" ∧ u'.is_admin = true ∧
      u'.created_at = 3 := by
  obtain ⟨s', u', rb, heq, hfind, hid, hun, hem, hpw, hadm, hcr⟩ :=
    claim_C10 w10Store 1 1 ⟨1, "n", "a@b", hashPassword "pw", false, 3⟩
      ⟨1, "n", "a@b", hashPassword "pw", false, 3⟩
      ⟨none, none, none, some true⟩ rfl (Or.inr rfl) rfl
  exact ⟨s', u', rb, heq, hfind, hid, hun, hem, hpw, hadm, hcr⟩

end Elib

namespace Elib.route_user

/-- `create_user` of `route_user.py` (lines 38–92): registration.  The
handler performs no duplicate check; per the spec the store enforces
email uniqueness, so the commit of a duplicate email raises an
`IntegrityError` (`Fault.integrityError`, modelled from the spec).  The
`created_at` column is set at creation by the store (`now`). -/
def create_user (s : Store) (body : Option UserBody) (now : Nat) :
    Except Fault (Resp × Store) :=
  match body with
  | none => .error .badBody
  | some data =>
    if !pyTruthyStr data.username || !pyTruthyStr data.email ||
        !pyTruthyStr data.password then
      .ok (⟨400, .msg "Nom d\x27utilisateur, email et mot de passe sont requis"⟩, s)
    else
      if s.users.any (fun u => u.email == data.email.getD "") then
        .error .integrityError
      else
        let new_user : User :=
          { id := s.next_user_id, username := data.username.getD "",
            email := data.email.getD "",
            password := hashPassword (data.password.getD ""),
            is_admin := data.is_admin.getD false, created_at := now }
        .ok (⟨201, .userCreated "Utilisateur créé avec succès" new_user.id
              new_user.username new_user.email new_user.is_admin⟩,
          { s with users := s.users ++ [new_user],
                   next_user_id := s.next_user_id + 1 })

/-- `get_users` of `route_user.py` (lines 98–125): admin-only listing of
every user's public fields. -/
def get_users (s : Store) (identity : Nat) : Except Fault (Resp × Store) :=
  match _require_admin s identity none with
  | some r => .ok (r, s)
  | none => .ok (⟨200, .userList (s.users.map User.view)⟩, s)

/-- `get_user` of `route_user.py` (lines 131–164): owner-or-admin read
of one user's public fields. -/
def get_user (s : Store) (identity user_id : Nat) :
    Except Fault (Resp × Store) :=
  match _require_admin s identity (some user_id) with
  | some r => .ok (r, s)
  | none =>
    match findUser s user_id with
    | none => .ok (⟨404, .notFoundPage⟩, s)
    | some user => .ok (⟨200, .userView user.view⟩, s)

/-- `delete_user` of `route_user.py` (lines 228–256): owner-or-admin
hard delete of a user row. -/
def delete_user (s : Store) (identity user_id : Nat) :
    Except Fault (Resp × Store) :=
  match _require_admin s identity (some user_id) with
  | some r => .ok (r, s)
  | none =>
    match findUser s user_id with
    | none => .ok (⟨404, .notFoundPage⟩, s)
    | some _ =>
      .ok (⟨200, .msg "Utilisateur supprimé avec succès"⟩,
        { s with users := s.users.filter (fun u => u.id != user_id) })

/-- `get_current_user` of `route_user.py` (lines 262–284):
`get_or_404` on the bearer identity, then the public fields. -/
def get_current_user (s : Store) (identity : Nat) :
    Except Fault (Resp × Store) :=
  match findUser s identity with
  | none => .ok (⟨404, .notFoundPage⟩, s)
  | some user => .ok (⟨200, .userView user.view⟩, s)

end Elib.route_user

namespace Elib.route_loan

/-- `get_loan` of `route_loan.py` (lines 137–173): `get_or_404` on the
loan, then `user.is_admin` (line 162) is read without a `None` guard, so
when the loan exists and the identity has no user row the handler raises
`AttributeError`. -/
def get_loan (s : Store) (identity loan_id : Nat) :
    Except Fault (Resp × Store) :=
  match findLoan s loan_id with
  | none => .ok (⟨404, .notFoundPage⟩, s)
  | some loan =>
    match findUser s identity with
    | none => .error .attrError
    | some user =>
      if !user.is_admin && loan.user_id != identity then
        .ok (⟨403, .msg "Accès interdit"⟩, s)
      else
        .ok (⟨200, .loanView loan⟩, s)

/-- `get_user_loans` of `route_loan.py` (lines 228–266):
`current_user.is_admin` (line 252) is read without a `None` guard, so an
identity with no user row raises `AttributeError`. -/
def get_user_loans (s : Store) (identity user_id : Nat) :
    Except Fault (Resp × Store) :=
  match findUser s identity with
  | none => .error .attrError
  | some current_user =>
    if !current_user.is_admin && identity != user_id then
      .ok (⟨403, .msg "Accès interdit"⟩, s)
    else
      .ok (⟨200, .loanList (s.loans.filter (fun l => l.user_id == user_id))⟩, s)

end Elib.route_loan

namespace Elib.route_category

/-- The JSON body of the category create/update endpoints. -/
structure CategoryBody where
  name : Option String
  description : Option String
deriving Repr, DecidableEq

/-- `create_category` of `route_category.py` (lines 29–82): admin check,
then `request.get_json()` (line 64, faults without a JSON body), 400 on
a falsy name, else insert with `description or ""`. -/
def create_category (s : Store) (identity : Nat) (body : Option CategoryBody) :
    Except Fault (Resp × Store) :=
  match _require_admin s identity with
  | some r => .ok (r, s)
  | none =>
    match body with
    | none => .error .badBody
    | some data =>
      if !pyTruthyStr data.name then
        .ok (⟨400, .msg "Le nom de la catégorie est requis"⟩, s)
      else
        let new_category : Category :=
          { id := s.next_category_id, name := data.name.getD "",
            description := some (data.description.getD "") }
        .ok (⟨201, .categoryCreated "Catégorie créée" new_category.view⟩,
          { s with categories := s.categories ++ [new_category],
                   next_category_id := s.next_category_id + 1 })

/-- `get_categories` of `route_category.py` (lines 87–104): public
listing, `description or ""`. -/
def get_categories (s : Store) : Except Fault (Resp × Store) :=
  .ok (⟨200, .categoryList (s.categories.map Category.view)⟩, s)

/-- `get_category` of `route_category.py` (lines 109–131): public read,
`get_or_404`. -/
def get_category (s : Store) (category_id : Nat) :
    Except Fault (Resp × Store) :=
  match findCategory s category_id with
  | none => .ok (⟨404, .notFoundPage⟩, s)
  | some c => .ok (⟨200, .categoryGot c.view⟩, s)

/-- `update_category` of `route_category.py` (lines 137–185): admin
check, `get_or_404`, then `request.get_json()` (line 172, faults without
a JSON body); partial merge with `data.get(k, current)` and
`description or ""` as the description default. -/
def update_category (s : Store) (identity category_id : Nat)
    (body : Option CategoryBody) : Except Fault (Resp × Store) :=
  match _require_admin s identity with
  | some r => .ok (r, s)
  | none =>
    match findCategory s category_id with
    | none => .ok (⟨404, .notFoundPage⟩, s)
    | some c =>
      match body with
      | none => .error .badBody
      | some data =>
        let c' : Category :=
          { c with name := data.name.getD c.name,
                   description :=
                     some (data.description.getD (c.description.getD "")) }
        .ok (⟨200, .categoryUpdated "Catégorie mise à jour"
              ⟨c'.id, c'.name, data.description.getD (c.description.getD "")⟩⟩,
          { s with categories :=
              s.categories.map (fun x => if x.id == category_id then c' else x) })

/-- `delete_category` of `route_category.py` (lines 191–220): admin-only
hard delete. -/
def delete_category (s : Store) (identity category_id : Nat) :
    Except Fault (Resp × Store) :=
  match _require_admin s identity with
  | some r => .ok (r, s)
  | none =>
    match findCategory s category_id with
    | none => .ok (⟨404, .notFoundPage⟩, s)
    | some _ =>
      .ok (⟨200, .msg "Catégorie supprimée"⟩,
        { s with categories :=
            s.categories.filter (fun c => c.id != category_id) })

end Elib.route_category

namespace Elib

/-- One request to any endpoint of the application (spec §6's endpoint
list), with the identity claim of the bearer token and the optional JSON
body where the endpoint reads one. -/
inductive Request where
  | createUser (body : Option route_user.UserBody) (now : Nat)
  | getUsers (identity : Nat)
  | getUser (identity target : Nat)
  | updateUser (identity target : Nat) (body : Option route_user.UserBody)
  | deleteUser (identity target : Nat)
  | getCurrentUser (identity : Nat)
  | login (body : Option route_user.LoginBody)
  | createCategory (identity : Nat) (body : Option route_category.CategoryBody)
  | getCategories
  | getCategory (cid : Nat)
  | updateCategory (identity cid : Nat) (body : Option route_category.CategoryBody)
  | deleteCategory (identity cid : Nat)
  | createLoan (identity : Nat) (body : Option route_loan.LoanBody) (now : Nat)
  | getLoans (identity : Nat)
  | getLoan (identity lid : Nat)
  | updateLoan (identity lid now : Nat)
  | getUserLoans (identity target : Nat)
  | deleteLoan (identity lid : Nat)
deriving Repr, DecidableEq

/-- Dispatch of a request to its handler.  `login` writes nothing, so
its wrapper pairs the response with the unchanged store. -/
def handle (s : Store) : Request → Except Fault (Resp × Store)
  | .createUser b now => route_user.create_user s b now
  | .getUsers i => route_user.get_users s i
  | .getUser i t => route_user.get_user s i t
  | .updateUser i t b => route_user.update_user s i t b
  | .deleteUser i t => route_user.delete_user s i t
  | .getCurrentUser i => route_user.get_current_user s i
  | .login b =>
    match route_user.login s b with
    | .ok r => .ok (r, s)
    | .error f => .error f
  | .createCategory i b => route_category.create_category s i b
  | .getCategories => route_category.get_categories s
  | .getCategory c => route_category.get_category s c
  | .updateCategory i c b => route_category.update_category s i c b
  | .deleteCategory i c => route_category.delete_category s i c
  | .createLoan i b n => route_loan.create_loan s i b n
  | .getLoans i => route_loan.get_loans s i
  | .getLoan i l => route_loan.get_loan s i l
  | .updateLoan i l n => route_loan.update_loan s i l n
  | .getUserLoans i t => route_loan.get_user_loans s i t
  | .deleteLoan i l => route_loan.delete_loan s i l

/-- A response body in the JSON error-envelope form: either a
handler-constructed `jsonify({"msg": ...})`, or the `get_or_404` 404
body, which per spec §6 is the same envelope as converted by app code
outside `src/` (see `Body.notFoundPage`). -/
def errorEnvelope : Body → Prop
  | .msg _ => True
  | .notFoundPage => True
  | _ => False

/-- An HTTP response of the documented shape: one of the status codes
the spec states for these endpoints, with every error status carrying
the JSON error envelope. -/
def wellFormedResp (r : Resp) : Prop :=
  (r.status = 200 ∨ r.status = 201 ∨ r.status = 400 ∨ r.status = 401 ∨
    r.status = 403 ∨ r.status = 404) ∧
  ((r.status = 400 ∨ r.status = 401 ∨ r.status = 403 ∨ r.status = 404) →
    errorEnvelope r.body)

/-- Exactly when a handler raises an unhandled fault, read off the code:
a missing JSON body at the point where the handler calls
`request.get_json()` (for `update_user`, `create_category` and
`update_category` that point is only reached after the authorization
check, and for `update_category`/`update_user` after the `get_or_404`
lookup succeeds); a `None` dereference of the caller's user row in
`get_loans`, `get_user_loans` (always) and `get_loan` (once the loan
resolved); a `None` `loan.ebook` relationship on `update_loan`'s success
path; and the spec-modelled `IntegrityError` when `create_user` commits
a duplicate email after its field validation passed. -/
def faultCond (s : Store) : Request → Prop
  | .createUser b _ =>
    b = none ∨ ∃ d, b = some d ∧
      (!pyTruthyStr d.username || !pyTruthyStr d.email ||
        !pyTruthyStr d.password) = false ∧
      s.users.any (fun u => u.email == d.email.getD "") = true
  | .getUsers _ => False
  | .getUser _ _ => False
  | .updateUser idn target b =>
    route_user._require_admin s idn (some target) = none ∧
      (∃ u, findUser s target = some u) ∧ b = none
  | .deleteUser _ _ => False
  | .getCurrentUser _ => False
  | .login b => b = none
  | .createCategory idn b =>
    route_category._require_admin s idn = none ∧ b = none
  | .getCategories => False
  | .getCategory _ => False
  | .updateCategory idn cid b =>
    route_category._require_admin s idn = none ∧
      (∃ c, findCategory s cid = some c) ∧ b = none
  | .deleteCategory _ _ => False
  | .createLoan _ b _ => b = none
  | .getLoans idn => findUser s idn = none
  | .getLoan idn lid => (∃ l, findLoan s lid = some l) ∧ findUser s idn = none
  | .updateLoan idn lid _ =>
    ∃ l, findLoan s lid = some l ∧ (l.user_id != idn) = false ∧
      l.is_returned = false ∧ findEbook s l.ebook_id = none
  | .getUserLoans idn _ => findUser s idn = none
  | .deleteLoan _ _ => False

theorem bool_false_of_not_true {b : Bool} (h : ¬ b = true) : b = false := by
  cases b
  · rfl
  · exact absurd rfl h

/-- A handler outcome that is a response: the well-formedness of that
response, and a fault condition known false, give both halves of the
C8 goal. -/
theorem ok_leaf {e : Except Fault (Resp × Store)} {X : Resp} {Y : Store}
    (heq : e = .ok (X, Y)) (hwf : wellFormedResp X) (P : Prop) (hP : ¬ P) :
    (∀ r s', e = .ok (r, s') → wellFormedResp r) ∧
      ((∃ f, e = .error f) ↔ P) := by
  subst heq
  refine ⟨?_, ?_, ?_⟩
  · intro r s' h
    simp only [Except.ok.injEq, Prod.mk.injEq] at h
    rw [← h.1]
    exact hwf
  · rintro ⟨f, hf⟩
    exact absurd hf (by simp)
  · intro hp
    exact absurd hp hP

/-- A handler outcome that is a fault, with its fault condition known
true: both halves of the C8 goal. -/
theorem fault_leaf {e : Except Fault (Resp × Store)} {f0 : Fault}
    (heq : e = .error f0) (P : Prop) (hP : P) :
    (∀ r s', e = .ok (r, s') → wellFormedResp r) ∧
      ((∃ f, e = .error f) ↔ P) := by
  subst heq
  refine ⟨?_, ?_, ?_⟩
  · intro r s' h
    exact absurd h (by simp)
  · intro _
    exact hP
  · intro _
    exact ⟨f0, rfl⟩

theorem wf200 (b : Body) : wellFormedResp ⟨200, b⟩ :=
  ⟨Or.inl rfl, by rintro (h | h | h | h) <;> simp at h⟩

theorem wf201 (b : Body) : wellFormedResp ⟨201, b⟩ :=
  ⟨Or.inr (Or.inl rfl), by rintro (h | h | h | h) <;> simp at h⟩

theorem wf_msg {st : Nat} (m : String)
    (h : st = 200 ∨ st = 201 ∨ st = 400 ∨ st = 401 ∨ st = 403 ∨ st = 404) :
    wellFormedResp ⟨st, .msg m⟩ :=
  ⟨h, fun _ => trivial⟩

theorem wf404 : wellFormedResp ⟨404, .notFoundPage⟩ :=
  ⟨Or.inr (Or.inr (Or.inr (Or.inr (Or.inr rfl)))), fun _ => trivial⟩

/-- The owner-or-admin-capable predicate either allows, or denies with a
403/404 `msg` envelope. -/
theorem require_admin_user_cases (s : Store) (idn : Nat) (uid : Option Nat) :
    route_user._require_admin s idn uid = none ∨
    ∃ st m, route_user._require_admin s idn uid = some ⟨st, .msg m⟩ ∧
      (st = 403 ∨ st = 404) := by
  cases hfu : findUser s idn with
  | none =>
    refine Or.inr ⟨404, "Utilisateur non trouvé", ?_, Or.inr rfl⟩
    simp only [route_user._require_admin, hfu]
  | some u =>
    cases uid with
    | none =>
      by_cases h : (!u.is_admin) = true
      · refine Or.inr ⟨403,
          "Accès interdit, vous n\x27êtes pas administrateur", ?_, Or.inl rfl⟩
        simp only [route_user._require_admin, hfu]
        rw [if_pos h]
      · refine Or.inl ?_
        simp only [route_user._require_admin, hfu]
        rw [if_neg h]
    | some t =>
      by_cases h : (!(u.is_admin || idn == t)) = true
      · refine Or.inr ⟨403,
          "Accès interdit, vous n\x27êtes pas propriétaire du compte ou administrateur",
          ?_, Or.inl rfl⟩
        simp only [route_user._require_admin, hfu]
        rw [if_pos h]
      · refine Or.inl ?_
        simp only [route_user._require_admin, hfu]
        rw [if_neg h]

/-- The loan-file admin predicate either allows, or denies 403 with a
`msg` envelope. -/
theorem require_admin_loan_cases (s : Store) (idn : Nat) :
    route_loan._require_admin s idn = none ∨
    ∃ m, route_loan._require_admin s idn = some ⟨403, .msg m⟩ := by
  cases hfu : findUser s idn with
  | none =>
    refine Or.inr ⟨"Accès interdit, vous n\x27êtes pas administrateur", ?_⟩
    simp only [route_loan._require_admin, hfu]
  | some u =>
    by_cases h : (!u.is_admin) = true
    · refine Or.inr ⟨"Accès interdit, vous n\x27êtes pas administrateur", ?_⟩
      simp only [route_loan._require_admin, hfu]
      rw [if_pos h]
    · refine Or.inl ?_
      simp only [route_loan._require_admin, hfu]
      rw [if_neg h]

/-- The category-file admin predicate either allows, or denies 403 with
a `msg` envelope. -/
theorem require_admin_category_cases (s : Store) (idn : Nat) :
    route_category._require_admin s idn = none ∨
    ∃ m, route_category._require_admin s idn = some ⟨403, .msg m⟩ := by
  cases hfu : findUser s idn with
  | none =>
    refine Or.inr ⟨"Accès interdit, vous n\x27êtes pas administrateur", ?_⟩
    simp only [route_category._require_admin, hfu]
  | some u =>
    by_cases h : (!u.is_admin) = true
    · refine Or.inr ⟨"Accès interdit, vous n\x27êtes pas administrateur", ?_⟩
      simp only [route_category._require_admin, hfu]
      rw [if_pos h]
    · refine Or.inl ?_
      simp only [route_category._require_admin, hfu]
      rw [if_neg h]

end Elib

namespace Elib

/-- An empty store: no user row backs any bearer identity. -/
def c8Store : Store := ⟨[], [], [], [], 1, 1, 1⟩

/-- C8 counterexample: the claim "each error outcome is converted at the
handler boundary into a JSON envelope ... no request input or store
state causes an unhandled fault to propagate out of a handler" is
false.  A bearer identity (5) whose user record does not exist makes
`get_loans` dereference `None.is_admin` — an unhandled `AttributeError`,
not a response; and a `create_loan` request without a JSON body faults
in `request.get_json()`/`data.get`. -/
theorem claim_C8_counterexample :
    route_loan.get_loans c8Store 5 = .error .attrError ∧
    route_loan.create_loan c8Store 5 none 0 = .error .badBody :=
  ⟨rfl, rfl⟩

/-- C8 (amended): For every request to any endpoint and every store
state, every HTTP response the handler produces is well-formed — a
stated status code, and the JSON `msg` envelope on every error status
400/401/403/404 (for the `get_or_404` 404s as converted outside the
handlers by app code not under `src/`, per spec §6) — and an unhandled
fault escapes the handler exactly under `faultCond`: a missing JSON body
where the handler reads one, an unresolvable bearer identity where the
handler dereferences the caller's user row (`get_loans`,
`get_user_loans`, and `get_loan` once the loan resolves), a missing
ebook row on `update_loan`'s success path, or a duplicate email at
`create_user`'s commit (spec-modelled store constraint). -/
theorem claim_C8_amended (s : Store) (req : Request) :
    (∀ r s', handle s req = .ok (r, s') → wellFormedResp r) ∧
      ((∃ f, handle s req = .error f) ↔ faultCond s req) := by
  cases req with
  | createUser b now =>
    cases b with
    | none =>
      exact fault_leaf rfl _ (Or.inl rfl)
    | some d =>
      by_cases hv : (!pyTruthyStr d.username || !pyTruthyStr d.email ||
          !pyTruthyStr d.password) = true
      · have heq : handle s (.createUser (some d) now) =
            .ok (⟨400, .msg "Nom d\x27utilisateur, email et mot de passe sont requis"⟩, s) := by
          simp only [handle, route_user.create_user]
          rw [if_pos hv]
        refine ok_leaf heq (wf_msg _ (by decide)) _ ?_
        intro hp
        simp only [faultCond] at hp
        rcases hp with h | ⟨d', hd', hcond, _⟩
        · exact absurd h (by simp)
        · injection hd' with hdd
          subst hdd
          rw [hcond] at hv
          simp at hv
      · by_cases hdup : (s.users.any (fun u => u.email == d.email.getD "")) = true
        · have heq : handle s (.createUser (some d) now) = .error .integrityError := by
            simp only [handle, route_user.create_user]
            rw [if_neg hv, if_pos hdup]
          refine fault_leaf heq _ ?_
          simp only [faultCond]
          exact Or.inr ⟨d, rfl, bool_false_of_not_true hv, hdup⟩
        · have heq : handle s (.createUser (some d) now) =
              .ok (⟨201, .userCreated "Utilisateur créé avec succès"
                  s.next_user_id (d.username.getD "") (d.email.getD "")
                  (d.is_admin.getD false)⟩,
                { s with
                  users := s.users ++
                    [{ id := s.next_user_id, username := d.username.getD "",
                       email := d.email.getD "",
                       password := hashPassword (d.password.getD ""),
                       is_admin := d.is_admin.getD false, created_at := now }],
                  next_user_id := s.next_user_id + 1 }) := by
            simp only [handle, route_user.create_user]
            rw [if_neg hv, if_neg hdup]
          refine ok_leaf heq (wf201 _) _ ?_
          intro hp
          simp only [faultCond] at hp
          rcases hp with h | ⟨d', hd', _, hany⟩
          · exact absurd h (by simp)
          · injection hd' with hdd
            subst hdd
            exact absurd hany hdup
  | getUsers idn =>
    rcases require_admin_user_cases s idn none with hA | ⟨st, m, hA, hst⟩
    · have heq : handle s (.getUsers idn) =
          .ok (⟨200, .userList (s.users.map User.view)⟩, s) := by
        simp only [handle, route_user.get_users, hA]
      exact ok_leaf heq (wf200 _) _ (by simp [faultCond])
    · have heq : handle s (.getUsers idn) = .ok (⟨st, .msg m⟩, s) := by
        simp only [handle, route_user.get_users, hA]
      refine ok_leaf heq (wf_msg m ?_) _ (by simp [faultCond])
      rcases hst with rfl | rfl
      · decide
      · decide
  | getUser idn target =>
    rcases require_admin_user_cases s idn (some target) with hA | ⟨st, m, hA, hst⟩
    · cases hfu : findUser s target with
      | none =>
        have heq : handle s (.getUser idn target) = .ok (⟨404, .notFoundPage⟩, s) := by
          simp only [handle, route_user.get_user, hA, hfu]
        exact ok_leaf heq wf404 _ (by simp [faultCond])
      | some u =>
        have heq : handle s (.getUser idn target) =
            .ok (⟨200, .userView u.view⟩, s) := by
          simp only [handle, route_user.get_user, hA, hfu]
        exact ok_leaf heq (wf200 _) _ (by simp [faultCond])
    · have heq : handle s (.getUser idn target) = .ok (⟨st, .msg m⟩, s) := by
        simp only [handle, route_user.get_user, hA]
      refine ok_leaf heq (wf_msg m ?_) _ (by simp [faultCond])
      rcases hst with rfl | rfl
      · decide
      · decide
  | updateUser idn target b =>
    rcases require_admin_user_cases s idn (some target) with hA | ⟨st, m, hA, hst⟩
    · cases hfu : findUser s target with
      | none =>
        have heq : handle s (.updateUser idn target b) =
            .ok (⟨404, .notFoundPage⟩, s) := by
          simp only [handle, route_user.update_user, hA, hfu]
        refine ok_leaf heq wf404 _ ?_
        intro hp
        simp only [faultCond] at hp
        obtain ⟨_, ⟨u, hu⟩, _⟩ := hp
        rw [hfu] at hu
        exact absurd hu (by simp)
      | some u =>
        cases b with
        | none =>
          have heq : handle s (.updateUser idn target none) = .error .badBody := by
            simp only [handle, route_user.update_user, hA, hfu]
          refine fault_leaf heq _ ?_
          simp only [faultCond]
          exact ⟨hA, ⟨u, hfu⟩, trivial⟩
        | some data =>
          have heq : handle s (.updateUser idn target (some data)) =
              .ok (⟨200, .userUpdated "Utilisateur mis à jour avec succès"
                  u.id (data.username.getD u.username) (data.email.getD u.email)
                  (data.is_admin.getD u.is_admin)⟩,
                { s with users := s.users.map (fun x => if x.id == target
                    then ({ u with
                      username := data.username.getD u.username,
                      email := data.email.getD u.email,
                      password := match data.password with
                        | some p => hashPassword p
                        | none => u.password,
                      is_admin := data.is_admin.getD u.is_admin } : User)
                    else x) }) := by
            simp only [handle, route_user.update_user, hA, hfu]
          refine ok_leaf heq (wf200 _) _ ?_
          intro hp
          simp only [faultCond] at hp
          exact absurd hp.2.2 (by simp)
    · have heq : handle s (.updateUser idn target b) = .ok (⟨st, .msg m⟩, s) := by
        simp only [handle, route_user.update_user, hA]
      refine ok_leaf heq (wf_msg m ?_) _ ?_
      · rcases hst with rfl | rfl
        · decide
        · decide
      · intro hp
        simp only [faultCond] at hp
        obtain ⟨h1, _, _⟩ := hp
        rw [hA] at h1
        exact absurd h1 (by simp)
  | deleteUser idn target =>
    rcases require_admin_user_cases s idn (some target) with hA | ⟨st, m, hA, hst⟩
    · cases hfu : findUser s target with
      | none =>
        have heq : handle s (.deleteUser idn target) =
            .ok (⟨404, .notFoundPage⟩, s) := by
          simp only [handle, route_user.delete_user, hA, hfu]
        exact ok_leaf heq wf404 _ (by simp [faultCond])
      | some u =>
        have heq : handle s (.deleteUser idn target) =
            .ok (⟨200, .msg "Utilisateur supprimé avec succès"⟩,
              { s with users := s.users.filter (fun x => x.id != target) }) := by
          simp only [handle, route_user.delete_user, hA, hfu]
        exact ok_leaf heq (wf200 _) _ (by simp [faultCond])
    · have heq : handle s (.deleteUser idn target) = .ok (⟨st, .msg m⟩, s) := by
        simp only [handle, route_user.delete_user, hA]
      refine ok_leaf heq (wf_msg m ?_) _ (by simp [faultCond])
      rcases hst with rfl | rfl
      · decide
      · decide
  | getCurrentUser idn =>
    cases hfu : findUser s idn with
    | none =>
      have heq : handle s (.getCurrentUser idn) = .ok (⟨404, .notFoundPage⟩, s) := by
        simp only [handle, route_user.get_current_user, hfu]
      exact ok_leaf heq wf404 _ (by simp [faultCond])
    | some u =>
      have heq : handle s (.getCurrentUser idn) =
          .ok (⟨200, .userView u.view⟩, s) := by
        simp only [handle, route_user.get_current_user, hfu]
      exact ok_leaf heq (wf200 _) _ (by simp [faultCond])
  | login b =>
    cases b with
    | none =>
      exact fault_leaf rfl _ rfl
    | some data =>
      by_cases hc : (!pyTruthyStr data.email || !pyTruthyStr data.password) = true
      · have hlog : route_user.login s (some data) =
            .ok ⟨400, .msg "Email et mot de passe sont requis"⟩ := by
          simp only [route_user.login]
          rw [if_pos hc]
        have heq : handle s (.login (some data)) =
            .ok (⟨400, .msg "Email et mot de passe sont requis"⟩, s) := by
          simp only [handle, hlog]
        refine ok_leaf heq (wf_msg _ (by decide)) _ ?_
        intro hp
        simp only [faultCond] at hp
        exact absurd hp (by simp)
      · cases hfind : s.users.find? (fun u => u.email == data.email.getD "") with
        | some u =>
          by_cases hpw : (checkPassword (data.password.getD "") u.password) = true
          · have hlog : route_user.login s (some data) = .ok ⟨200, .token u.id⟩ := by
              simp only [route_user.login, hfind]
              rw [if_neg hc, if_pos hpw]
            have heq : handle s (.login (some data)) =
                .ok (⟨200, .token u.id⟩, s) := by
              simp only [handle, hlog]
            refine ok_leaf heq (wf200 _) _ ?_
            intro hp
            simp only [faultCond] at hp
            exact absurd hp (by simp)
          · have hlog : route_user.login s (some data) =
                .ok ⟨401, .msg "Email ou mot de passe incorrect"⟩ := by
              simp only [route_user.login, hfind]
              rw [if_neg hc, if_neg hpw]
            have heq : handle s (.login (some data)) =
                .ok (⟨401, .msg "Email ou mot de passe incorrect"⟩, s) := by
              simp only [handle, hlog]
            refine ok_leaf heq (wf_msg _ (by decide)) _ ?_
            intro hp
            simp only [faultCond] at hp
            exact absurd hp (by simp)
        | none =>
          have hlog : route_user.login s (some data) =
              .ok ⟨401, .msg "Email ou mot de passe incorrect"⟩ := by
            simp only [route_user.login, hfind]
            rw [if_neg hc]
          have heq : handle s (.login (some data)) =
              .ok (⟨401, .msg "Email ou mot de passe incorrect"⟩, s) := by
            simp only [handle, hlog]
          refine ok_leaf heq (wf_msg _ (by decide)) _ ?_
          intro hp
          simp only [faultCond] at hp
          exact absurd hp (by simp)
  | createCategory idn b =>
    rcases require_admin_category_cases s idn with hA | ⟨m, hA⟩
    · cases b with
      | none =>
        have heq : handle s (.createCategory idn none) = .error .badBody := by
          simp only [handle, route_category.create_category, hA]
        refine fault_leaf heq _ ?_
        simp only [faultCond]
        exact ⟨hA, trivial⟩
      | some data =>
        by_cases hn : (!pyTruthyStr data.name) = true
        · have heq : handle s (.createCategory idn (some data)) =
              .ok (⟨400, .msg "Le nom de la catégorie est requis"⟩, s) := by
            simp only [handle, route_category.create_category, hA]
            rw [if_pos hn]
          refine ok_leaf heq (wf_msg _ (by decide)) _ ?_
          intro hp
          simp only [faultCond] at hp
          exact absurd hp.2 (by simp)
        · have heq : handle s (.createCategory idn (some data)) =
              .ok (⟨201, .categoryCreated "Catégorie créée"
                  (Category.view ⟨s.next_category_id, data.name.getD "",
                    some (data.description.getD "")⟩)⟩,
                { s with
                  categories := s.categories ++
                    [{ id := s.next_category_id, name := data.name.getD "",
                       description := some (data.description.getD "") }],
                  next_category_id := s.next_category_id + 1 }) := by
            simp only [handle, route_category.create_category, hA]
            rw [if_neg hn]
          refine ok_leaf heq (wf201 _) _ ?_
          intro hp
          simp only [faultCond] at hp
          exact absurd hp.2 (by simp)
    · have heq : handle s (.createCategory idn b) = .ok (⟨403, .msg m⟩, s) := by
        simp only [handle, route_category.create_category, hA]
      refine ok_leaf heq (wf_msg m (by decide)) _ ?_
      intro hp
      simp only [faultCond] at hp
      obtain ⟨h1, _⟩ := hp
      rw [hA] at h1
      exact absurd h1 (by simp)
  | getCategories =>
    exact ok_leaf rfl (wf200 _) _ (by simp [faultCond])
  | getCategory cid =>
    cases hfc : findCategory s cid with
    | none =>
      have heq : handle s (.getCategory cid) = .ok (⟨404, .notFoundPage⟩, s) := by
        simp only [handle, route_category.get_category, hfc]
      exact ok_leaf heq wf404 _ (by simp [faultCond])
    | some c =>
      have heq : handle s (.getCategory cid) = .ok (⟨200, .categoryGot c.view⟩, s) := by
        simp only [handle, route_category.get_category, hfc]
      exact ok_leaf heq (wf200 _) _ (by simp [faultCond])
  | updateCategory idn cid b =>
    rcases require_admin_category_cases s idn with hA | ⟨m, hA⟩
    · cases hfc : findCategory s cid with
      | none =>
        have heq : handle s (.updateCategory idn cid b) =
            .ok (⟨404, .notFoundPage⟩, s) := by
          simp only [handle, route_category.update_category, hA, hfc]
        refine ok_leaf heq wf404 _ ?_
        intro hp
        simp only [faultCond] at hp
        obtain ⟨_, ⟨c, hc⟩, _⟩ := hp
        rw [hfc] at hc
        exact absurd hc (by simp)
      | some c =>
        cases b with
        | none =>
          have heq : handle s (.updateCategory idn cid none) = .error .badBody := by
            simp only [handle, route_category.update_category, hA, hfc]
          refine fault_leaf heq _ ?_
          simp only [faultCond]
          exact ⟨hA, ⟨c, hfc⟩, trivial⟩
        | some data =>
          have heq : handle s (.updateCategory idn cid (some data)) =
              .ok (⟨200, .categoryUpdated "Catégorie mise à jour"
                  ⟨c.id, data.name.getD c.name,
                    data.description.getD (c.description.getD "")⟩⟩,
                { s with categories := s.categories.map (fun x =>
                    if x.id == cid
                    then ({ c with
                      name := data.name.getD c.name,
                      description :=
                        some (data.description.getD (c.description.getD "")) } : Category)
                    else x) }) := by
            simp only [handle, route_category.update_category, hA, hfc]
          refine ok_leaf heq (wf200 _) _ ?_
          intro hp
          simp only [faultCond] at hp
          exact absurd hp.2.2 (by simp)
    · have heq : handle s (.updateCategory idn cid b) = .ok (⟨403, .msg m⟩, s) := by
        simp only [handle, route_category.update_category, hA]
      refine ok_leaf heq (wf_msg m (by decide)) _ ?_
      intro hp
      simp only [faultCond] at hp
      obtain ⟨h1, _, _⟩ := hp
      rw [hA] at h1
      exact absurd h1 (by simp)
  | deleteCategory idn cid =>
    rcases require_admin_category_cases s idn with hA | ⟨m, hA⟩
    · cases hfc : findCategory s cid with
      | none =>
        have heq : handle s (.deleteCategory idn cid) =
            .ok (⟨404, .notFoundPage⟩, s) := by
          simp only [handle, route_category.delete_category, hA, hfc]
        exact ok_leaf heq wf404 _ (by simp [faultCond])
      | some c =>
        have heq : handle s (.deleteCategory idn cid) =
            .ok (⟨200, .msg "Catégorie supprimée"⟩,
              { s with categories :=
                  s.categories.filter (fun x => x.id != cid) }) := by
          simp only [handle, route_category.delete_category, hA, hfc]
        exact ok_leaf heq (wf200 _) _ (by simp [faultCond])
    · have heq : handle s (.deleteCategory idn cid) = .ok (⟨403, .msg m⟩, s) := by
        simp only [handle, route_category.delete_category, hA]
      exact ok_leaf heq (wf_msg m (by decide)) _ (by simp [faultCond])
  | createLoan idn b now =>
    cases b with
    | none =>
      exact fault_leaf rfl _ rfl
    | some data =>
      by_cases h1 : (!pyTruthyNat data.ebook_id) = true
      · have heq : handle s (.createLoan idn (some data) now) =
            .ok (⟨400, .msg "L\x27identifiant du livre est requis"⟩, s) := by
          simp only [handle, route_loan.create_loan]
          rw [if_pos h1]
        refine ok_leaf heq (wf_msg _ (by decide)) _ ?_
        intro hp
        simp only [faultCond] at hp
        exact absurd hp (by simp)
      · cases hfind : findEbook s (data.ebook_id.getD 0) with
        | none =>
          have heq : handle s (.createLoan idn (some data) now) =
              .ok (⟨404, .notFoundPage⟩, s) := by
            simp only [handle, route_loan.create_loan, hfind]
            rw [if_neg h1]
          refine ok_leaf heq wf404 _ ?_
          intro hp
          simp only [faultCond] at hp
          exact absurd hp (by simp)
        | some e =>
          by_cases h2 : e.available_copies < 1
          · have heq : handle s (.createLoan idn (some data) now) =
                .ok (⟨400, .msg "Aucune copie disponible pour ce livre"⟩, s) := by
              simp only [handle, route_loan.create_loan, hfind]
              rw [if_neg h1, if_pos h2]
            refine ok_leaf heq (wf_msg _ (by decide)) _ ?_
            intro hp
            simp only [faultCond] at hp
            exact absurd hp (by simp)
          · have heq : handle s (.createLoan idn (some data) now) =
                .ok (⟨201, .loanCreated "Emprunt créé avec succès"
                    { id := s.next_loan_id, user_id := idn, ebook_id := e.id,
                      loan_date := now, due_date := now + 14,
                      return_date := none, is_returned := false }⟩,
                  { s with
                    ebooks := updateEbook s.ebooks e.id
                      (fun x => { x with available_copies := x.available_copies - 1 }),
                    loans := s.loans ++
                      [{ id := s.next_loan_id, user_id := idn, ebook_id := e.id,
                         loan_date := now, due_date := now + 14,
                         return_date := none, is_returned := false }],
                    next_loan_id := s.next_loan_id + 1 }) := by
              simp only [handle, route_loan.create_loan, hfind]
              rw [if_neg h1, if_neg h2]
            refine ok_leaf heq (wf201 _) _ ?_
            intro hp
            simp only [faultCond] at hp
            exact absurd hp (by simp)
  | getLoans idn =>
    cases hfu : findUser s idn with
    | none =>
      have heq : handle s (.getLoans idn) = .error .attrError := by
        simp only [handle, route_loan.get_loans, hfu]
      exact fault_leaf heq _ hfu
    | some u =>
      have heq : handle s (.getLoans idn) =
          .ok (⟨200, .loanList (if u.is_admin then s.loans
            else s.loans.filter (fun l => l.user_id == idn))⟩, s) := by
        simp only [handle, route_loan.get_loans, hfu]
      refine ok_leaf heq (wf200 _) _ ?_
      intro hp
      simp only [faultCond] at hp
      rw [hfu] at hp
      exact absurd hp (by simp)
  | getLoan idn lid =>
    cases hfind : findLoan s lid with
    | none =>
      have heq : handle s (.getLoan idn lid) = .ok (⟨404, .notFoundPage⟩, s) := by
        simp only [handle, route_loan.get_loan, hfind]
      refine ok_leaf heq wf404 _ ?_
      intro hp
      simp only [faultCond] at hp
      obtain ⟨⟨l, hl⟩, _⟩ := hp
      rw [hfind] at hl
      exact absurd hl (by simp)
    | some loan =>
      cases hfu : findUser s idn with
      | none =>
        have heq : handle s (.getLoan idn lid) = .error .attrError := by
          simp only [handle, route_loan.get_loan, hfind, hfu]
        refine fault_leaf heq _ ?_
        simp only [faultCond]
        exact ⟨⟨loan, hfind⟩, hfu⟩
      | some u =>
        by_cases hcond : (!u.is_admin && loan.user_id != idn) = true
        · have heq : handle s (.getLoan idn lid) =
              .ok (⟨403, .msg "Accès interdit"⟩, s) := by
            simp only [handle, route_loan.get_loan, hfind, hfu]
            rw [if_pos hcond]
          refine ok_leaf heq (wf_msg _ (by decide)) _ ?_
          intro hp
          simp only [faultCond] at hp
          obtain ⟨_, h2⟩ := hp
          rw [hfu] at h2
          exact absurd h2 (by simp)
        · have heq : handle s (.getLoan idn lid) =
              .ok (⟨200, .loanView loan⟩, s) := by
            simp only [handle, route_loan.get_loan, hfind, hfu]
            rw [if_neg hcond]
          refine ok_leaf heq (wf200 _) _ ?_
          intro hp
          simp only [faultCond] at hp
          obtain ⟨_, h2⟩ := hp
          rw [hfu] at h2
          exact absurd h2 (by simp)
  | updateLoan idn lid now =>
    cases hfind : findLoan s lid with
    | none =>
      have heq : handle s (.updateLoan idn lid now) =
          .ok (⟨404, .notFoundPage⟩, s) := by
        simp only [handle, route_loan.update_loan, hfind]
      refine ok_leaf heq wf404 _ ?_
      intro hp
      simp only [faultCond] at hp
      obtain ⟨l, hl, _⟩ := hp
      rw [hfind] at hl
      exact absurd hl (by simp)
    | some l =>
      by_cases h1 : (l.user_id != idn) = true
      · have heq : handle s (.updateLoan idn lid now) =
            .ok (⟨403, .msg "Accès interdit, vous n\x27êtes pas propriétaire de ce prêt"⟩, s) := by
          simp only [handle, route_loan.update_loan, hfind]
          rw [if_pos h1]
        refine ok_leaf heq (wf_msg _ (by decide)) _ ?_
        intro hp
        simp only [faultCond] at hp
        obtain ⟨l', hl', hown, _, _⟩ := hp
        rw [hfind] at hl'
        injection hl' with hll
        subst hll
        rw [hown] at h1
        simp at h1
      · by_cases h2 : l.is_returned = true
        · have heq : handle s (.updateLoan idn lid now) =
              .ok (⟨400, .msg "Ce prêt a déjà été retourné"⟩, s) := by
            simp only [handle, route_loan.update_loan, hfind]
            rw [if_neg h1, if_pos h2]
          refine ok_leaf heq (wf_msg _ (by decide)) _ ?_
          intro hp
          simp only [faultCond] at hp
          obtain ⟨l', hl', _, hret, _⟩ := hp
          rw [hfind] at hl'
          injection hl' with hll
          subst hll
          rw [h2] at hret
          simp at hret
        · cases hfe : findEbook s l.ebook_id with
          | none =>
            have heq : handle s (.updateLoan idn lid now) = .error .attrError := by
              simp only [handle, route_loan.update_loan, hfind]
              rw [if_neg h1, if_neg h2]
              simp only [hfe]
            refine fault_leaf heq _ ?_
            simp only [faultCond]
            exact ⟨l, hfind, bool_false_of_not_true h1,
              bool_false_of_not_true h2, hfe⟩
          | some e =>
            have heq : handle s (.updateLoan idn lid now) =
                .ok (⟨200, .loanReturned
                    ("Prêt du livre " ++ e.title ++ " retourné avec succès")
                    l.id (some now) true⟩,
                  { s with
                    loans := s.loans.map (fun x => if x.id == lid
                      then ({ l with is_returned := true, return_date := some now } : Loan)
                      else x),
                    ebooks := updateEbook s.ebooks l.ebook_id
                      (fun x => { x with available_copies := x.available_copies + 1 }) }) := by
              simp only [handle, route_loan.update_loan, hfind]
              rw [if_neg h1, if_neg h2]
              simp only [hfe]
            refine ok_leaf heq (wf200 _) _ ?_
            intro hp
            simp only [faultCond] at hp
            obtain ⟨l', hl', _, _, hfe'⟩ := hp
            rw [hfind] at hl'
            injection hl' with hll
            subst hll
            rw [hfe] at hfe'
            exact absurd hfe' (by simp)
  | getUserLoans idn target =>
    cases hfu : findUser s idn with
    | none =>
      have heq : handle s (.getUserLoans idn target) = .error .attrError := by
        simp only [handle, route_loan.get_user_loans, hfu]
      exact fault_leaf heq _ hfu
    | some cu =>
      by_cases hcond : (!cu.is_admin && idn != target) = true
      · have heq : handle s (.getUserLoans idn target) =
            .ok (⟨403, .msg "Accès interdit"⟩, s) := by
          simp only [handle, route_loan.get_user_loans, hfu]
          rw [if_pos hcond]
        refine ok_leaf heq (wf_msg _ (by decide)) _ ?_
        intro hp
        simp only [faultCond] at hp
        rw [hfu] at hp
        exact absurd hp (by simp)
      · have heq : handle s (.getUserLoans idn target) =
            .ok (⟨200, .loanList
              (s.loans.filter (fun l => l.user_id == target))⟩, s) := by
          simp only [handle, route_loan.get_user_loans, hfu]
          rw [if_neg hcond]
        refine ok_leaf heq (wf200 _) _ ?_
        intro hp
        simp only [faultCond] at hp
        rw [hfu] at hp
        exact absurd hp (by simp)
  | deleteLoan idn lid =>
    rcases require_admin_loan_cases s idn with hA | ⟨m, hA⟩
    · cases hfind : findLoan s lid with
      | none =>
        have heq : handle s (.deleteLoan idn lid) =
            .ok (⟨404, .notFoundPage⟩, s) := by
          simp only [handle, route_loan.delete_loan, hA, hfind]
        exact ok_leaf heq wf404 _ (by simp [faultCond])
      | some l =>
        have heq : handle s (.deleteLoan idn lid) =
            .ok (⟨200, .msg "Prêt supprimé avec succès"⟩,
              { s with loans := s.loans.filter (fun x => x.id != lid) }) := by
          simp only [handle, route_loan.delete_loan, hA, hfind]
        exact ok_leaf heq (wf200 _) _ (by simp [faultCond])
    · have heq : handle s (.deleteLoan idn lid) = .ok (⟨403, .msg m⟩, s) := by
        simp only [handle, route_loan.delete_loan, hA]
      exact ok_leaf heq (wf_msg m (by decide)) _ (by simp [faultCond])

end Elib

namespace Elib

/-- A concrete store for the C8 witness: an admin owner with an active
loan whose ebook exists. -/
def w8Store : Store :=
  { users := [⟨1, "a", "a@b", "h", true, 0⟩],
    ebooks := [⟨1, "b", 1⟩],
    loans := [⟨1, 1, 1, 0, 14, none, false⟩],
    categories := [],
    next_loan_id := 2, next_user_id := 2, next_category_id := 1 }

/-- Witness for C8 (amended) at concrete inputs: a resolving identity's
`GET /loans` produces the well-formed 200 response, and on the empty
store the fault characterization yields the `GET /loans` fault. -/
theorem claim_C8_amended_witness :
    wellFormedResp ⟨200, .loanList w8Store.loans⟩ ∧
    (∃ f, handle c8Store (.getLoans 5) = .error f) :=
  ⟨(claim_C8_amended w8Store (.getLoans 1)).1 ⟨200, .loanList w8Store.loans⟩
      w8Store rfl,
   (claim_C8_amended c8Store (.getLoans 5)).2.mpr rfl⟩

end Elib
